import Mathlib

/-!
Verification development for the imx307 V4L2 sensor driver
(`src/imx307.c`).  The driver core is shallowly embedded: the mode
catalog and register program tables are transcribed verbatim, the
control set and the streaming state machine are modelled as pure
functions over an explicit driver-state record, and the external
collaborators (I2C register transport, runtime power management, the
V4L2 control framework) are modelled as an explicit `World` record
threaded through every operation.  Machine integers are modelled with
`Nat`/`Int`; all values handled by the driver stay far below any
relevant overflow boundary, so no wrap-around arithmetic occurs in the
embedded fragment.
-/

set_option maxRecDepth 10000
set_option linter.unusedVariables false

/-- One register write of a register program: 16-bit address, 8-bit value
(`struct imx307_reg`). -/
structure imx307_reg where
  address : Nat
  val : Nat
deriving DecidableEq

/-- Analog crop rectangle (`struct v4l2_rect`, fields used by the driver). -/
structure v4l2_rect where
  left : Nat
  top : Nat
  width : Nat
  height : Nat
deriving DecidableEq

/-- A sensor mode (`struct imx307_mode`): resolution, crop, default
vertical timing and the register program configuring it. -/
structure imx307_mode where
  width : Nat
  height : Nat
  crop : v4l2_rect
  vts_def : Nat
  reg_list : List imx307_reg
deriving DecidableEq

/- Media bus format codes, numeric values from the Linux
   media-bus-format header (external constants used by the driver). -/

def MEDIA_BUS_FMT_SRGGB10_1X10 : Nat := 0x300f
def MEDIA_BUS_FMT_SGRBG10_1X10 : Nat := 0x300a
def MEDIA_BUS_FMT_SGBRG10_1X10 : Nat := 0x3010
def MEDIA_BUS_FMT_SBGGR10_1X10 : Nat := 0x3007
def MEDIA_BUS_FMT_SRGGB8_1X8 : Nat := 0x3014
def MEDIA_BUS_FMT_SGRBG8_1X8 : Nat := 0x3002
def MEDIA_BUS_FMT_SGBRG8_1X8 : Nat := 0x3013
def MEDIA_BUS_FMT_SBGGR8_1X8 : Nat := 0x3001
def MEDIA_BUS_FMT_SENSOR_DATA : Nat := 0x7002

/- Driver constants from the top of src/imx307.c. -/

def imx307_REG_MODE_SELECT : Nat := 0x0100
def imx307_MODE_STANDBY : Nat := 0x00
def imx307_MODE_STREAMING : Nat := 0x01
def imx307_REG_VTS : Nat := 0x0160
def imx307_VTS_15FPS : Nat := 0x0dc6
def imx307_VTS_30FPS_1080P : Nat := 0x06e3
def imx307_VTS_30FPS_BINNED : Nat := 0x06e3
def imx307_VTS_30FPS_640x480 : Nat := 0x06e3
def imx307_VTS_MAX : Nat := 0xffff
def imx307_VBLANK_MIN : Nat := 4
def imx307_PPL_DEFAULT : Nat := 3448
def imx307_REG_EXPOSURE : Nat := 0x015a
def imx307_EXPOSURE_MIN : Nat := 4
def imx307_EXPOSURE_DEFAULT : Nat := 0x640
def imx307_REG_ANALOG_GAIN : Nat := 0x0157
def imx307_REG_DIGITAL_GAIN : Nat := 0x0158
def imx307_REG_ORIENTATION : Nat := 0x0172
def imx307_REG_TEST_PATTERN : Nat := 0x0600
def imx307_REG_TESTP_RED : Nat := 0x0602
def imx307_REG_TESTP_GREENR : Nat := 0x0604
def imx307_REG_TESTP_BLUE : Nat := 0x0606
def imx307_REG_TESTP_GREENB : Nat := 0x0608
def imx307_PIXEL_RATE : Nat := 182400000

/-- The closed 8-entry code table (`static const u32 codes[]`): two base
pixel depths, four flip variants each, ordered none / h / v / hv. -/
def codes : List Nat :=
  [MEDIA_BUS_FMT_SRGGB10_1X10,
   MEDIA_BUS_FMT_SGRBG10_1X10,
   MEDIA_BUS_FMT_SGBRG10_1X10,
   MEDIA_BUS_FMT_SBGGR10_1X10,
   MEDIA_BUS_FMT_SRGGB8_1X8,
   MEDIA_BUS_FMT_SGRBG8_1X8,
   MEDIA_BUS_FMT_SGBRG8_1X8,
   MEDIA_BUS_FMT_SBGGR8_1X8]

/-- Menu-index to register-value mapping for the test pattern control
(`imx307_test_pattern_val`). -/
def imx307_test_pattern_val : List Nat := [0, 2, 1, 3, 4]
def mode_3280x2464_regs : List imx307_reg := [⟨0x0100, 0x00⟩, ⟨0x30eb, 0x0c⟩, ⟨0x30eb, 0x05⟩, ⟨0x300a, 0xff⟩, ⟨0x300b, 0xff⟩, ⟨0x30eb, 0x05⟩, ⟨0x30eb, 0x09⟩, ⟨0x0114, 0x01⟩, ⟨0x0128, 0x00⟩, ⟨0x012a, 0x18⟩, ⟨0x012b, 0x00⟩, ⟨0x0164, 0x00⟩, ⟨0x0165, 0x00⟩, ⟨0x0166, 0x0c⟩, ⟨0x0167, 0xcf⟩, ⟨0x0168, 0x00⟩, ⟨0x0169, 0x00⟩, ⟨0x016a, 0x09⟩, ⟨0x016b, 0x9f⟩, ⟨0x016c, 0x0c⟩, ⟨0x016d, 0xd0⟩, ⟨0x016e, 0x09⟩, ⟨0x016f, 0xa0⟩, ⟨0x0170, 0x01⟩, ⟨0x0171, 0x01⟩, ⟨0x0174, 0x00⟩, ⟨0x0175, 0x00⟩, ⟨0x0301, 0x05⟩, ⟨0x0303, 0x01⟩, ⟨0x0304, 0x03⟩, ⟨0x0305, 0x03⟩, ⟨0x0306, 0x00⟩, ⟨0x0307, 0x39⟩, ⟨0x030b, 0x01⟩, ⟨0x030c, 0x00⟩, ⟨0x030d, 0x72⟩, ⟨0x0624, 0x0c⟩, ⟨0x0625, 0xd0⟩, ⟨0x0626, 0x09⟩, ⟨0x0627, 0xa0⟩, ⟨0x455e, 0x00⟩, ⟨0x471e, 0x4b⟩, ⟨0x4767, 0x0f⟩, ⟨0x4750, 0x14⟩, ⟨0x4540, 0x00⟩, ⟨0x47b4, 0x14⟩, ⟨0x4713, 0x30⟩, ⟨0x478b, 0x10⟩, ⟨0x478f, 0x10⟩, ⟨0x4793, 0x10⟩, ⟨0x4797, 0x0e⟩, ⟨0x479b, 0x0e⟩, ⟨0x0162, 0x0d⟩, ⟨0x0163, 0x78⟩]

def mode_1920_1080_regs : List imx307_reg := [⟨0x0100, 0x00⟩, ⟨0x30eb, 0x05⟩, ⟨0x30eb, 0x0c⟩, ⟨0x300a, 0xff⟩, ⟨0x300b, 0xff⟩, ⟨0x30eb, 0x05⟩, ⟨0x30eb, 0x09⟩, ⟨0x0114, 0x01⟩, ⟨0x0128, 0x00⟩, ⟨0x012a, 0x18⟩, ⟨0x012b, 0x00⟩, ⟨0x0162, 0x0d⟩, ⟨0x0163, 0x78⟩, ⟨0x0164, 0x02⟩, ⟨0x0165, 0xa8⟩, ⟨0x0166, 0x0a⟩, ⟨0x0167, 0x27⟩, ⟨0x0168, 0x02⟩, ⟨0x0169, 0xb4⟩, ⟨0x016a, 0x06⟩, ⟨0x016b, 0xeb⟩, ⟨0x016c, 0x07⟩, ⟨0x016d, 0x80⟩, ⟨0x016e, 0x04⟩, ⟨0x016f, 0x38⟩, ⟨0x0170, 0x01⟩, ⟨0x0171, 0x01⟩, ⟨0x0174, 0x00⟩, ⟨0x0175, 0x00⟩, ⟨0x0301, 0x05⟩, ⟨0x0303, 0x01⟩, ⟨0x0304, 0x03⟩, ⟨0x0305, 0x03⟩, ⟨0x0306, 0x00⟩, ⟨0x0307, 0x39⟩, ⟨0x030b, 0x01⟩, ⟨0x030c, 0x00⟩, ⟨0x030d, 0x72⟩, ⟨0x0624, 0x07⟩, ⟨0x0625, 0x80⟩, ⟨0x0626, 0x04⟩, ⟨0x0627, 0x38⟩, ⟨0x455e, 0x00⟩, ⟨0x471e, 0x4b⟩, ⟨0x4767, 0x0f⟩, ⟨0x4750, 0x14⟩, ⟨0x4540, 0x00⟩, ⟨0x47b4, 0x14⟩, ⟨0x4713, 0x30⟩, ⟨0x478b, 0x10⟩, ⟨0x478f, 0x10⟩, ⟨0x4793, 0x10⟩, ⟨0x4797, 0x0e⟩, ⟨0x479b, 0x0e⟩, ⟨0x0162, 0x0d⟩, ⟨0x0163, 0x78⟩]

def mode_1640_1232_regs : List imx307_reg := [⟨0x0100, 0x00⟩, ⟨0x30eb, 0x0c⟩, ⟨0x30eb, 0x05⟩, ⟨0x300a, 0xff⟩, ⟨0x300b, 0xff⟩, ⟨0x30eb, 0x05⟩, ⟨0x30eb, 0x09⟩, ⟨0x0114, 0x01⟩, ⟨0x0128, 0x00⟩, ⟨0x012a, 0x18⟩, ⟨0x012b, 0x00⟩, ⟨0x0164, 0x00⟩, ⟨0x0165, 0x00⟩, ⟨0x0166, 0x0c⟩, ⟨0x0167, 0xcf⟩, ⟨0x0168, 0x00⟩, ⟨0x0169, 0x00⟩, ⟨0x016a, 0x09⟩, ⟨0x016b, 0x9f⟩, ⟨0x016c, 0x06⟩, ⟨0x016d, 0x68⟩, ⟨0x016e, 0x04⟩, ⟨0x016f, 0xd0⟩, ⟨0x0170, 0x01⟩, ⟨0x0171, 0x01⟩, ⟨0x0174, 0x01⟩, ⟨0x0175, 0x01⟩, ⟨0x0301, 0x05⟩, ⟨0x0303, 0x01⟩, ⟨0x0304, 0x03⟩, ⟨0x0305, 0x03⟩, ⟨0x0306, 0x00⟩, ⟨0x0307, 0x39⟩, ⟨0x030b, 0x01⟩, ⟨0x030c, 0x00⟩, ⟨0x030d, 0x72⟩, ⟨0x0624, 0x06⟩, ⟨0x0625, 0x68⟩, ⟨0x0626, 0x04⟩, ⟨0x0627, 0xd0⟩, ⟨0x455e, 0x00⟩, ⟨0x471e, 0x4b⟩, ⟨0x4767, 0x0f⟩, ⟨0x4750, 0x14⟩, ⟨0x4540, 0x00⟩, ⟨0x47b4, 0x14⟩, ⟨0x4713, 0x30⟩, ⟨0x478b, 0x10⟩, ⟨0x478f, 0x10⟩, ⟨0x4793, 0x10⟩, ⟨0x4797, 0x0e⟩, ⟨0x479b, 0x0e⟩, ⟨0x0162, 0x0d⟩, ⟨0x0163, 0x78⟩]

def mode_640_480_regs : List imx307_reg := [⟨0x0100, 0x00⟩, ⟨0x30eb, 0x05⟩, ⟨0x30eb, 0x0c⟩, ⟨0x300a, 0xff⟩, ⟨0x300b, 0xff⟩, ⟨0x30eb, 0x05⟩, ⟨0x30eb, 0x09⟩, ⟨0x0114, 0x01⟩, ⟨0x0128, 0x00⟩, ⟨0x012a, 0x18⟩, ⟨0x012b, 0x00⟩, ⟨0x0162, 0x0d⟩, ⟨0x0163, 0x78⟩, ⟨0x0164, 0x03⟩, ⟨0x0165, 0xe8⟩, ⟨0x0166, 0x08⟩, ⟨0x0167, 0xe7⟩, ⟨0x0168, 0x02⟩, ⟨0x0169, 0xf0⟩, ⟨0x016a, 0x06⟩, ⟨0x016b, 0xaf⟩, ⟨0x016c, 0x02⟩, ⟨0x016d, 0x80⟩, ⟨0x016e, 0x01⟩, ⟨0x016f, 0xe0⟩, ⟨0x0170, 0x01⟩, ⟨0x0171, 0x01⟩, ⟨0x0174, 0x03⟩, ⟨0x0175, 0x03⟩, ⟨0x0301, 0x05⟩, ⟨0x0303, 0x01⟩, ⟨0x0304, 0x03⟩, ⟨0x0305, 0x03⟩, ⟨0x0306, 0x00⟩, ⟨0x0307, 0x39⟩, ⟨0x030b, 0x01⟩, ⟨0x030c, 0x00⟩, ⟨0x030d, 0x72⟩, ⟨0x0624, 0x06⟩, ⟨0x0625, 0x68⟩, ⟨0x0626, 0x04⟩, ⟨0x0627, 0xd0⟩, ⟨0x455e, 0x00⟩, ⟨0x471e, 0x4b⟩, ⟨0x4767, 0x0f⟩, ⟨0x4750, 0x14⟩, ⟨0x4540, 0x00⟩, ⟨0x47b4, 0x14⟩, ⟨0x4713, 0x30⟩, ⟨0x478b, 0x10⟩, ⟨0x478f, 0x10⟩, ⟨0x4793, 0x10⟩, ⟨0x4797, 0x0e⟩, ⟨0x479b, 0x0e⟩]

def raw8_framefmt_regs : List imx307_reg := [⟨0x018c, 0x08⟩, ⟨0x018d, 0x08⟩, ⟨0x0309, 0x08⟩]

def raw10_framefmt_regs : List imx307_reg := [⟨0x018c, 0x0a⟩, ⟨0x018d, 0x0a⟩, ⟨0x0309, 0x0a⟩]

/-- The fixed mode catalog (`static const struct imx307_mode supported_modes[]`). -/
def supported_modes : List imx307_mode :=
  [{ width := 3280, height := 2464,
     crop := { left := 8, top := 8, width := 3280, height := 2464 },
     vts_def := imx307_VTS_15FPS, reg_list := mode_3280x2464_regs },
   { width := 1920, height := 1080,
     crop := { left := 688, top := 700, width := 1920, height := 1080 },
     vts_def := imx307_VTS_30FPS_1080P, reg_list := mode_1920_1080_regs },
   { width := 1640, height := 1232,
     crop := { left := 8, top := 8, width := 3280, height := 2464 },
     vts_def := imx307_VTS_30FPS_BINNED, reg_list := mode_1640_1232_regs },
   { width := 640, height := 480,
     crop := { left := 1008, top := 760, width := 1280, height := 960 },
     vts_def := imx307_VTS_30FPS_640x480, reg_list := mode_640_480_regs }]

/-- Catalog lookup by index; the driver stores the active mode as a pointer
into `supported_modes`, modelled here by the index. -/
def modeAt (i : Nat) : imx307_mode :=
  supported_modes.getD i
    { width := 0, height := 0, crop := { left := 0, top := 0, width := 0, height := 0 },
      vts_def := 0, reg_list := [] }

/-- One V4L2 control (`struct v4l2_ctrl`, the fields this driver uses):
range, current value, and the GRABBED / READ_ONLY flags. -/
structure v4l2_ctrl where
  minimum : Int
  maximum : Int
  step : Int
  default_value : Int
  val : Int
  grabbed : Bool
  read_only : Bool
deriving DecidableEq

/-- Clamp a candidate value into a control range (all controls this
driver reconfigures have step 1). -/
def ctrl_clamp (mn mx v : Int) : Int := max mn (min mx v)

/-- Modelled from the spec: `__v4l2_ctrl_modify_range` of the external
control framework (spec section 4.3) — installs a new
[minimum, maximum, step, default] quadruple for a control and keeps the
stored value legal by clamping it into the new range. -/
def v4l2_ctrl_modify_range (c : v4l2_ctrl) (mn mx st df : Int) : v4l2_ctrl :=
  { c with minimum := mn, maximum := mx, step := st, default_value := df,
           val := ctrl_clamp mn mx c.val }

/-- Modelled from the spec: the external collaborators of section 6 —
the I2C register transport is an oracle `busOk` deciding the fate of
the n-th bus write, and the Power Sequencer / runtime-PM collaborator
is a usage counter that invokes power_on when the count rises from
zero and power_off when it falls back to zero.  `powerOnCalls`,
`powerOffCalls` and `errLogs` count collaborator events so theorems
can speak about them. -/
structure World where
  busOk : Nat → Bool
  busCount : Nat
  powerOnOk : Bool
  usage : Nat
  powerOnCalls : Nat
  powerOffCalls : Nat
  errLogs : Nat

/-- Modelled from the spec: `pm_runtime_get_sync` — raise the usage
count; on the zero-to-one edge run power_on, which may fail. -/
def pm_runtime_get_sync (w : World) : Int × World :=
  let w1 := { w with usage := w.usage + 1 }
  if w.usage = 0 then
    let w2 := { w1 with powerOnCalls := w1.powerOnCalls + 1 }
    if w.powerOnOk then (0, w2) else (-5, w2)
  else (0, w1)

/-- Modelled from the spec: `pm_runtime_put_noidle` — drop the usage
count without running power_off. -/
def pm_runtime_put_noidle (w : World) : World := { w with usage := w.usage - 1 }

/-- Modelled from the spec: `pm_runtime_put` — drop the usage count and
run power_off on the one-to-zero edge. -/
def pm_runtime_put (w : World) : World :=
  if w.usage = 1 then
    { w with usage := 0, powerOffCalls := w.powerOffCalls + 1 }
  else { w with usage := w.usage - 1 }

/-- Modelled from the spec: `pm_runtime_get_if_in_use` — take a
reference only when the device is already powered (usage positive). -/
def pm_runtime_get_if_in_use (w : World) : Bool × World :=
  if w.usage = 0 then (false, w)
  else (true, { w with usage := w.usage + 1 })

/-- `imx307_write_reg`: lengths beyond 4 bytes are rejected as -EINVAL
before any bus activity; otherwise one bus transaction runs and its
failure is -EIO. -/
def imx307_write_reg (w : World) (reg : Nat) (len : Nat) (v : Nat) : Int × World :=
  if 4 < len then (-22, w)
  else if w.busOk w.busCount then (0, { w with busCount := w.busCount + 1 })
  else (-5, { w with busCount := w.busCount + 1 })

/-- `imx307_write_regs`: write a register program in table order, abort
at the first failing write and report that register address (the
second component models the dev_err log emitted there). -/
def imx307_write_regs (w : World) : List imx307_reg → Int × Option Nat × World
  | [] => (0, none, w)
  | r :: rest =>
    let p := imx307_write_reg w r.address 1 r.val
    if p.1 = 0 then imx307_write_regs p.2 rest
    else (p.1, some r.address, p.2)

/-- Identifier set of the driver controls (the V4L2_CID values used by
`imx307_init_controls` and `imx307_set_ctrl`). -/
inductive CtrlId where
  | PIXEL_RATE
  | VBLANK
  | HBLANK
  | EXPOSURE
  | ANALOGUE_GAIN
  | DIGITAL_GAIN
  | HFLIP
  | VFLIP
  | TEST_PATTERN
  | TEST_PATTERN_RED
  | TEST_PATTERN_GREENR
  | TEST_PATTERN_BLUE
  | TEST_PATTERN_GREENB
deriving DecidableEq

/-- The per-instance driver state (`struct imx307`): active format,
active mode (index into the catalog), the control set and the
streaming flag. -/
structure Imx307 where
  fmt_code : Nat
  fmt_width : Nat
  fmt_height : Nat
  modeIdx : Nat
  pixel_rate : v4l2_ctrl
  exposure : v4l2_ctrl
  vflip : v4l2_ctrl
  hflip : v4l2_ctrl
  vblank : v4l2_ctrl
  hblank : v4l2_ctrl
  analogue_gain : v4l2_ctrl
  digital_gain : v4l2_ctrl
  test_pattern : v4l2_ctrl
  testp_red : v4l2_ctrl
  testp_greenr : v4l2_ctrl
  testp_blue : v4l2_ctrl
  testp_greenb : v4l2_ctrl
  streaming : Bool
deriving DecidableEq

/-- The active mode (`imx307->mode`). -/
def currentMode (s : Imx307) : imx307_mode := modeAt s.modeIdx

/-- Control lookup by identifier. -/
def getCtrl (s : Imx307) : CtrlId → v4l2_ctrl
  | .PIXEL_RATE => s.pixel_rate
  | .VBLANK => s.vblank
  | .HBLANK => s.hblank
  | .EXPOSURE => s.exposure
  | .ANALOGUE_GAIN => s.analogue_gain
  | .DIGITAL_GAIN => s.digital_gain
  | .HFLIP => s.hflip
  | .VFLIP => s.vflip
  | .TEST_PATTERN => s.test_pattern
  | .TEST_PATTERN_RED => s.testp_red
  | .TEST_PATTERN_GREENR => s.testp_greenr
  | .TEST_PATTERN_BLUE => s.testp_blue
  | .TEST_PATTERN_GREENB => s.testp_greenb

/-- Control update by identifier. -/
def setCtrl (s : Imx307) (id : CtrlId) (c : v4l2_ctrl) : Imx307 :=
  match id with
  | .PIXEL_RATE => { s with pixel_rate := c }
  | .VBLANK => { s with vblank := c }
  | .HBLANK => { s with hblank := c }
  | .EXPOSURE => { s with exposure := c }
  | .ANALOGUE_GAIN => { s with analogue_gain := c }
  | .DIGITAL_GAIN => { s with digital_gain := c }
  | .HFLIP => { s with hflip := c }
  | .VFLIP => { s with vflip := c }
  | .TEST_PATTERN => { s with test_pattern := c }
  | .TEST_PATTERN_RED => { s with testp_red := c }
  | .TEST_PATTERN_GREENR => { s with testp_greenr := c }
  | .TEST_PATTERN_BLUE => { s with testp_blue := c }
  | .TEST_PATTERN_GREENB => { s with testp_greenb := c }

/-- `imx307_get_format_code`: look the requested code up in the closed
table (first match; table length on a miss, then reset to 0) and
overlay the two flip bits onto the low two bits of the index. -/
def imx307_get_format_code (s : Imx307) (code : Nat) : Nat :=
  let i := codes.findIdx (fun c => c == code)
  let i := if codes.length ≤ i then 0 else i
  let i := (i &&& 0xfffffffc) |||
           (if s.vflip.val ≠ 0 then 2 else 0) |||
           (if s.hflip.val ≠ 0 then 1 else 0)
  codes.getD i 0

/-- The inline table lookup at the top of the image-pad branch of
`imx307_set_pad_format`: resolve the requested code to a table entry,
falling back to index 0 when it is not in the table. -/
def imx307_requested_code (code : Nat) : Nat :=
  let i := codes.findIdx (fun c => c == code)
  let i := if codes.length ≤ i then 0 else i
  codes.getD i 0

/-- The vertical-blank pre-step at the top of `imx307_set_ctrl`:
a vblank write first recomputes the exposure maximum and default
against the current mode height plus the new vblank value. -/
def set_ctrl_precompute (s : Imx307) (id : CtrlId) (v : Int) : Imx307 :=
  if id = CtrlId.VBLANK then
    let exposure_max : Int := ((currentMode s).height : Int) + v - 4
    let exposure_def : Int :=
      if exposure_max < (imx307_EXPOSURE_DEFAULT : Int) then exposure_max
      else (imx307_EXPOSURE_DEFAULT : Int)
    { s with exposure := v4l2_ctrl_modify_range s.exposure s.exposure.minimum
               exposure_max s.exposure.step exposure_def }
  else s

/-- The hardware-write switch of `imx307_set_ctrl`. -/
def set_ctrl_hw (s : Imx307) (w : World) (id : CtrlId) (v : Int) : Int × World :=
  match id with
  | .ANALOGUE_GAIN => imx307_write_reg w imx307_REG_ANALOG_GAIN 1 v.toNat
  | .EXPOSURE => imx307_write_reg w imx307_REG_EXPOSURE 2 v.toNat
  | .DIGITAL_GAIN => imx307_write_reg w imx307_REG_DIGITAL_GAIN 2 v.toNat
  | .TEST_PATTERN =>
      imx307_write_reg w imx307_REG_TEST_PATTERN 2 (imx307_test_pattern_val.getD v.toNat 0)
  | .HFLIP =>
      imx307_write_reg w imx307_REG_ORIENTATION 1
        (s.hflip.val.toNat ||| (s.vflip.val.toNat <<< 1))
  | .VFLIP =>
      imx307_write_reg w imx307_REG_ORIENTATION 1
        (s.hflip.val.toNat ||| (s.vflip.val.toNat <<< 1))
  | .VBLANK => imx307_write_reg w imx307_REG_VTS 2 ((currentMode s).height + v.toNat)
  | .TEST_PATTERN_RED => imx307_write_reg w imx307_REG_TESTP_RED 2 v.toNat
  | .TEST_PATTERN_GREENR => imx307_write_reg w imx307_REG_TESTP_GREENR 2 v.toNat
  | .TEST_PATTERN_BLUE => imx307_write_reg w imx307_REG_TESTP_BLUE 2 v.toNat
  | .TEST_PATTERN_GREENB => imx307_write_reg w imx307_REG_TESTP_GREENB 2 v.toNat
  | _ => (-22, w)

/-- `imx307_set_ctrl`: the driver s_ctrl callback.  A vertical-blank
write first recomputes the exposure maximum and default; then, only if
the device is powered, the value is pushed to hardware (otherwise it
is accepted and stored for later replay). -/
def imx307_set_ctrl (s : Imx307) (w : World) (id : CtrlId) (v : Int) : Int × Imx307 × World :=
  let s := set_ctrl_precompute s id v
  let p := pm_runtime_get_if_in_use w
  if p.1 = false then (0, s, p.2)
  else
    let q := set_ctrl_hw s p.2 id v
    (q.1, s, pm_runtime_put q.2)

/-- Modelled from the spec: the driver-internal value-set entry point of
the control framework (`__v4l2_ctrl_s_ctrl`) per section 4.3 — the
value is clamped into the control range, stored, and pushed through
the driver s_ctrl callback (which writes hardware only when powered;
when unpowered the value stays stored for later replay). -/
def v4l2_ctrl_s_ctrl_driver (s : Imx307) (w : World) (id : CtrlId) (v : Int) :
    Int × Imx307 × World :=
  let c := getCtrl s id
  let v := ctrl_clamp c.minimum c.maximum v
  let s := setCtrl s id { c with val := v }
  imx307_set_ctrl s w id v

/-- Modelled from the spec: the user-facing set_value operation of
section 4.3 — mutation of a grabbed (frozen-while-streaming) control
is rejected with the locked-control error -EBUSY and mutation of a
read-only control with -EACCES, both leaving the stored value
unchanged; otherwise the value is clamped, stored and written through
when powered. -/
def v4l2_ctrl_s_ctrl_user (s : Imx307) (w : World) (id : CtrlId) (v : Int) :
    Int × Imx307 × World :=
  let c := getCtrl s id
  if c.grabbed then (-16, s, w)
  else if c.read_only then (-13, s, w)
  else v4l2_ctrl_s_ctrl_driver s w id v

/-- `__v4l2_ctrl_grab`: set or clear the GRABBED flag of one control. -/
def v4l2_ctrl_grab (s : Imx307) (id : CtrlId) (g : Bool) : Imx307 :=
  let c := getCtrl s id
  setCtrl s id { c with grabbed := g }

/-- The controls re-applied by the control-replay step, in registration
order; the framework skips read-only controls (pixel_rate, hblank). -/
def replay_ids : List CtrlId :=
  [.VBLANK, .EXPOSURE, .ANALOGUE_GAIN, .DIGITAL_GAIN, .HFLIP, .VFLIP,
   .TEST_PATTERN, .TEST_PATTERN_RED, .TEST_PATTERN_GREENR,
   .TEST_PATTERN_BLUE, .TEST_PATTERN_GREENB]

/-- Modelled from the spec: the control-replay loop of
`__v4l2_ctrl_handler_setup` (section 4.4 step 4) — re-apply each
stored control value through the driver s_ctrl callback, aborting at
the first error. -/
def ctrl_handler_setup_go : Imx307 → World → List CtrlId → Int × Imx307 × World
  | s, w, [] => (0, s, w)
  | s, w, id :: rest =>
    let p := imx307_set_ctrl s w id (getCtrl s id).val
    if p.1 = 0 then ctrl_handler_setup_go p.2.1 p.2.2 rest else p

/-- Modelled from the spec: `__v4l2_ctrl_handler_setup` — replay the
full control set in registration order. -/
def v4l2_ctrl_handler_setup (s : Imx307) (w : World) : Int × Imx307 × World :=
  ctrl_handler_setup_go s w replay_ids

/-- The format-register case selection of `imx307_set_framefmt`:
`some true` for the four 8-bit codes, `some false` for the four 10-bit
codes, `none` for the -EINVAL fallback. -/
def framefmt_case (code : Nat) : Option Bool :=
  if code = MEDIA_BUS_FMT_SRGGB8_1X8 ∨ code = MEDIA_BUS_FMT_SGRBG8_1X8 ∨
     code = MEDIA_BUS_FMT_SGBRG8_1X8 ∨ code = MEDIA_BUS_FMT_SBGGR8_1X8 then some true
  else if code = MEDIA_BUS_FMT_SRGGB10_1X10 ∨ code = MEDIA_BUS_FMT_SGRBG10_1X10 ∨
          code = MEDIA_BUS_FMT_SGBRG10_1X10 ∨ code = MEDIA_BUS_FMT_SBGGR10_1X10 then some false
  else none

/-- `imx307_set_framefmt`: write the register triple selected by the
bit depth of the active format code. -/
def imx307_set_framefmt (s : Imx307) (w : World) : Int × Option Nat × World :=
  match framefmt_case s.fmt_code with
  | some true => imx307_write_regs w raw8_framefmt_regs
  | some false => imx307_write_regs w raw10_framefmt_regs
  | none => (-22, none, w)

/-- Stage 4 of `imx307_start_streaming` (after the control replay):
write the streaming-enable command; on failure release power,
otherwise freeze the flip controls and succeed. -/
def imx307_start_after_setup (s : Imx307) (w : World) : Int × Imx307 × World :=
  let p4 := imx307_write_reg w imx307_REG_MODE_SELECT 1 imx307_MODE_STREAMING
  if p4.1 ≠ 0 then (p4.1, s, pm_runtime_put p4.2)
  else (0, v4l2_ctrl_grab (v4l2_ctrl_grab s .VFLIP true) .HFLIP true, p4.2)

/-- Stage 3 of `imx307_start_streaming` (after the format registers):
replay the control set; on failure release power. -/
def imx307_start_after_fmt (s : Imx307) (w : World) : Int × Imx307 × World :=
  let p3 := v4l2_ctrl_handler_setup s w
  if p3.1 ≠ 0 then (p3.1, p3.2.1, pm_runtime_put p3.2.2)
  else imx307_start_after_setup p3.2.1 p3.2.2

/-- Stage 2 of `imx307_start_streaming` (after the mode register
table): program the format-specific registers; on failure release
power. -/
def imx307_start_after_regs (s : Imx307) (w : World) : Int × Imx307 × World :=
  let p2 := imx307_set_framefmt s w
  if p2.1 ≠ 0 then (p2.1, s, pm_runtime_put p2.2.2)
  else imx307_start_after_fmt s p2.2.2

/-- Stage 1 of `imx307_start_streaming` (after power was acquired):
write the full register program of the active mode; on failure release
power. -/
def imx307_start_after_power (s : Imx307) (w : World) : Int × Imx307 × World :=
  let p1 := imx307_write_regs w (currentMode s).reg_list
  if p1.1 ≠ 0 then (p1.1, s, pm_runtime_put p1.2.2)
  else imx307_start_after_regs s p1.2.2

/-- `imx307_start_streaming`: acquire power, program the mode register
table, program the format registers, replay the control set, enable
streaming, then freeze the flip controls; every failure after the
power acquisition releases it before returning.  The sequence is
written as a chain of named stages mirroring the early-return chain of
the C function. -/
def imx307_start_streaming (s : Imx307) (w : World) : Int × Imx307 × World :=
  let p0 := pm_runtime_get_sync w
  if p0.1 < 0 then (p0.1, s, pm_runtime_put_noidle p0.2)
  else imx307_start_after_power s p0.2

/-- `imx307_stop_streaming`: best-effort streaming-disable write (a
failure only bumps the error log), unfreeze the flip controls, release
power. -/
def imx307_stop_streaming (s : Imx307) (w : World) : Imx307 × World :=
  let p := imx307_write_reg w imx307_REG_MODE_SELECT 1 imx307_MODE_STANDBY
  let w := if p.1 ≠ 0 then { p.2 with errLogs := p.2.errLogs + 1 } else p.2
  let s := v4l2_ctrl_grab (v4l2_ctrl_grab s .VFLIP false) .HFLIP false
  (s, pm_runtime_put w)

/-- `imx307_set_stream`: the streaming-enable entry point; a request
matching the current state returns success immediately. -/
def imx307_set_stream (s : Imx307) (w : World) (enable : Bool) : Int × Imx307 × World :=
  if s.streaming = enable then (0, s, w)
  else if enable then
    let p := imx307_start_streaming s w
    if p.1 ≠ 0 then p
    else (0, { p.2.1 with streaming := enable }, p.2.2)
  else
    let p := imx307_stop_streaming s w
    (0, { p.1 with streaming := enable }, p.2)

/-- `imx307_suspend`: run the stop sequence when suspending while
streaming; the streaming flag is kept as the pre-suspend marker. -/
def imx307_suspend (s : Imx307) (w : World) : Int × Imx307 × World :=
  if s.streaming then
    let p := imx307_stop_streaming s w
    (0, p.1, p.2)
  else (0, s, w)

/-- `imx307_resume`: restart streaming when the pre-suspend state was
streaming; when that fails, force the stop sequence, clear the
streaming flag and surface the failure. -/
def imx307_resume (s : Imx307) (w : World) : Int × Imx307 × World :=
  if s.streaming then
    let p := imx307_start_streaming s w
    if p.1 ≠ 0 then
      let q := imx307_stop_streaming p.2.1 p.2.2
      (p.1, { q.1 with streaming := false }, q.2)
    else (0, p.2.1, p.2.2)
  else (0, s, w)

/-- City-block distance between a catalog mode and a requested size,
the nearest-size metric. -/
def mode_dist (m : imx307_mode) (rw rh : Nat) : Nat :=
  ((m.width : Int) - (rw : Int)).natAbs + ((m.height : Int) - (rh : Int)).natAbs

/-- Index of the first minimum of `f` on `[0, n)`: scan indices in
order and replace the best only on strict improvement. -/
def argminIdx (f : Nat → Nat) : Nat → Nat
  | 0 => 0
  | n + 1 =>
    let b := argminIdx f n
    if f n < f b then n else b

/-- Modelled from the spec: the `v4l2_find_nearest_size` collaborator
as specified in section 4.1 — select the catalog entry whose size is
nearest to the request under a defined distance metric, ties broken by
catalog order (first listed wins); total because the catalog is
non-empty.  Returns the catalog index. -/
def v4l2_find_nearest_size (rw rh : Nat) : Nat :=
  argminIdx (fun i => mode_dist (modeAt i) rw rh) supported_modes.length

/-- A set_format request (`struct v4l2_subdev_format`): target pad,
TRY/ACTIVE selector and the requested code and size. -/
structure PadReq where
  pad : Nat
  isTry : Bool
  code : Nat
  width : Nat
  height : Nat
deriving DecidableEq

/-- The TRY (pad-config) formats owned by the framework caller. -/
structure TryCfg where
  imgCode : Nat
  imgWidth : Nat
  imgHeight : Nat
  metaCode : Nat
  metaWidth : Nat
  metaHeight : Nat
deriving DecidableEq

/-- A format returned by get_fmt/set_fmt (code, width, height). -/
structure FmtOut where
  code : Nat
  width : Nat
  height : Nat
deriving DecidableEq

/-- The active-path mode-change block of `imx307_set_pad_format`: store
the new format and mode, recompute the vertical-blank range and value,
the exposure maximum and default, and the horizontal-blank constant. -/
def imx307_apply_mode_change (s : Imx307) (w : World) (mIdx : Nat) (newCode : Nat) :
    Imx307 × World :=
  let m := modeAt mIdx
  let s := { s with fmt_code := newCode, fmt_width := m.width, fmt_height := m.height,
                    modeIdx := mIdx }
  let s := { s with vblank := v4l2_ctrl_modify_range s.vblank (imx307_VBLANK_MIN : Int)
                      ((imx307_VTS_MAX : Int) - (m.height : Int)) 1
                      ((m.vts_def : Int) - (m.height : Int)) }
  let p := v4l2_ctrl_s_ctrl_driver s w .VBLANK ((m.vts_def : Int) - (m.height : Int))
  let s := p.2.1
  let w := p.2.2
  let exposure_max : Int := (m.vts_def : Int) - 4
  let exposure_def : Int :=
    if exposure_max < (imx307_EXPOSURE_DEFAULT : Int) then exposure_max
    else (imx307_EXPOSURE_DEFAULT : Int)
  let s := { s with exposure := v4l2_ctrl_modify_range s.exposure s.exposure.minimum
                      exposure_max s.exposure.step exposure_def }
  let hb : Int := (imx307_PPL_DEFAULT : Int) - (m.width : Int)
  let s := { s with hblank := v4l2_ctrl_modify_range s.hblank hb hb 1 hb }
  (s, w)

/-- `imx307_set_pad_format`: resolve the requested code through the
flip resolver, select the nearest catalog mode, and on the active path
apply the mode change only when the mode or the resolved code actually
changed. -/
def imx307_set_pad_format (s : Imx307) (cfg : TryCfg) (w : World) (req : PadReq) :
    Int × Imx307 × TryCfg × World :=
  if 2 ≤ req.pad then (-22, s, cfg, w)
  else if req.pad = 0 then
    let newCode := imx307_get_format_code s (imx307_requested_code req.code)
    let mIdx := v4l2_find_nearest_size req.width req.height
    let m := modeAt mIdx
    if req.isTry then
      (0, s, { cfg with imgCode := newCode, imgWidth := m.width, imgHeight := m.height }, w)
    else if s.modeIdx ≠ mIdx ∨ s.fmt_code ≠ newCode then
      let p := imx307_apply_mode_change s w mIdx newCode
      (0, p.1, cfg, p.2)
    else (0, s, cfg, w)
  else
    if req.isTry then
      (0, s, { cfg with metaCode := req.code, metaWidth := req.width,
                        metaHeight := req.height }, w)
    else (0, s, cfg, w)

/-- `imx307_get_pad_format` (through `__imx307_get_pad_format`): the
active image path reports the active mode size with the flip-resolved
current code; the TRY path re-resolves the stored TRY code. -/
def imx307_get_pad_format (s : Imx307) (cfg : TryCfg) (pad : Nat) (isTry : Bool) :
    Int × FmtOut × TryCfg :=
  if 2 ≤ pad then (-22, { code := 0, width := 0, height := 0 }, cfg)
  else if isTry then
    if pad = 0 then
      let c := imx307_get_format_code s cfg.imgCode
      (0, { code := c, width := cfg.imgWidth, height := cfg.imgHeight },
       { cfg with imgCode := c })
    else
      (0, { code := MEDIA_BUS_FMT_SENSOR_DATA, width := cfg.metaWidth,
            height := cfg.metaHeight },
       { cfg with metaCode := MEDIA_BUS_FMT_SENSOR_DATA })
  else
    if pad = 0 then
      (0, { code := imx307_get_format_code s s.fmt_code, width := (currentMode s).width,
            height := (currentMode s).height }, cfg)
    else
      (0, { code := MEDIA_BUS_FMT_SENSOR_DATA, width := 16384, height := 1 }, cfg)

/-- The driver state right after probe: mode 0 active, default format
SRGGB10, control set as built by `imx307_init_controls` against mode 0,
streaming off. -/
def initState : Imx307 :=
  { fmt_code := MEDIA_BUS_FMT_SRGGB10_1X10,
    fmt_width := 3280, fmt_height := 2464,
    modeIdx := 0,
    pixel_rate := { minimum := 182400000, maximum := 182400000, step := 1,
                    default_value := 182400000, val := 182400000,
                    grabbed := false, read_only := true },
    exposure := { minimum := 4, maximum := 3522, step := 1, default_value := 1600,
                  val := 1600, grabbed := false, read_only := false },
    vflip := { minimum := 0, maximum := 1, step := 1, default_value := 0, val := 0,
               grabbed := false, read_only := false },
    hflip := { minimum := 0, maximum := 1, step := 1, default_value := 0, val := 0,
               grabbed := false, read_only := false },
    vblank := { minimum := 4, maximum := 63071, step := 1, default_value := 1062,
                val := 1062, grabbed := false, read_only := false },
    hblank := { minimum := 168, maximum := 168, step := 1, default_value := 168,
                val := 168, grabbed := false, read_only := true },
    analogue_gain := { minimum := 0, maximum := 232, step := 1, default_value := 0,
                       val := 0, grabbed := false, read_only := false },
    digital_gain := { minimum := 256, maximum := 4095, step := 1, default_value := 256,
                      val := 256, grabbed := false, read_only := false },
    test_pattern := { minimum := 0, maximum := 4, step := 1, default_value := 0,
                      val := 0, grabbed := false, read_only := false },
    testp_red := { minimum := 0, maximum := 1023, step := 1, default_value := 1023,
                   val := 1023, grabbed := false, read_only := false },
    testp_greenr := { minimum := 0, maximum := 1023, step := 1, default_value := 1023,
                      val := 1023, grabbed := false, read_only := false },
    testp_blue := { minimum := 0, maximum := 1023, step := 1, default_value := 1023,
                    val := 1023, grabbed := false, read_only := false },
    testp_greenb := { minimum := 0, maximum := 1023, step := 1, default_value := 1023,
                      val := 1023, grabbed := false, read_only := false },
    streaming := false }

/-- A quiet initial world: reliable bus, power sequencer succeeding,
device not powered, no events yet. -/
def world0 : World :=
  { busOk := fun _ => true, busCount := 0, powerOnOk := true, usage := 0,
    powerOnCalls := 0, powerOffCalls := 0, errLogs := 0 }

/-- The post-probe state with the streaming flag raised, as it is
after a successful stream start (used as a concrete test state). -/
def sStreaming : Imx307 := { initState with streaming := true }

/-- A world whose bus fails exactly the fifth write issued after the
observation starts (sequence number 4). -/
def wFail5 : World := { world0 with busOk := fun n => decide (n ≠ 4) }

/-- A world in which the device already holds one power reference. -/
def wOn : World := { world0 with usage := 1 }

/-- An empty TRY pad configuration (used as a concrete test input). -/
def cfg0 : TryCfg := { imgCode := 0, imgWidth := 0, imgHeight := 0,
                       metaCode := 0, metaWidth := 0, metaHeight := 0 }

/-- Reachability of a driver state through the externally exposed
interface of spec section 6: set_streaming, user control writes and
set_format, starting from the post-probe state paired with an
arbitrary collaborator world. -/
inductive Reach : Imx307 → World → Prop where
  | init : ∀ w, Reach initState w
  | stream : ∀ s w e, Reach s w →
      Reach (imx307_set_stream s w e).2.1 (imx307_set_stream s w e).2.2
  | uctrl : ∀ s w id v, Reach s w →
      Reach (v4l2_ctrl_s_ctrl_user s w id v).2.1 (v4l2_ctrl_s_ctrl_user s w id v).2.2
  | setfmt : ∀ s cfg w req, Reach s w →
      Reach (imx307_set_pad_format s cfg w req).2.1 (imx307_set_pad_format s cfg w req).2.2.2

/-- Spec-side description of the base lookup of the resolver: the
index of the first table entry equal to the requested code, or 0 when
the requested code is not in the table. -/
def spec_base_index (code : Nat) : Nat :=
  match codes.findIdx? (fun c => code == c) with
  | some i => i
  | none => 0

lemma if_lt_eq_min (a b : Int) : (if a < b then a else b) = min a b := by
  split_ifs with h
  · exact (min_eq_left h.le).symm
  · exact (min_eq_right (not_lt.mp h)).symm

lemma grab_state (s : Imx307) (g : Bool) :
    v4l2_ctrl_grab (v4l2_ctrl_grab s .VFLIP g) .HFLIP g =
      { s with hflip := { s.hflip with grabbed := g },
               vflip := { s.vflip with grabbed := g } } := rfl

lemma stop_streaming_state (s : Imx307) (w : World) :
    (imx307_stop_streaming s w).1 =
      { s with hflip := { s.hflip with grabbed := false },
               vflip := { s.vflip with grabbed := false } } := by
  simp only [imx307_stop_streaming]
  exact grab_state s false

lemma stop_streaming_world (s : Imx307) (w : World) :
    (imx307_stop_streaming s w).2.usage = w.usage - 1 ∧
    (w.usage = 1 → (imx307_stop_streaming s w).2.powerOffCalls = w.powerOffCalls + 1) ∧
    (imx307_stop_streaming s w).2.errLogs =
      (if w.busOk w.busCount then w.errLogs else w.errLogs + 1) := by
  simp only [imx307_stop_streaming, imx307_write_reg, pm_runtime_put]
  split_ifs <;> simp_all

/-- Claim C6: a set_streaming request that matches the current
streaming state returns success and performs no state change and no
hardware or power access: enabling while streaming and disabling while
stopped are both no-ops returning success. -/
theorem imx307_set_stream_noop (s : Imx307) (w : World) (e : Bool)
    (h : s.streaming = e) : imx307_set_stream s w e = (0, s, w) := by
  simp [imx307_set_stream, h]

/-- Witness for C6 at the post-probe state: disabling while stopped is
a no-op returning success. -/
theorem imx307_set_stream_noop_witness :
    initState.streaming = false ∧
    imx307_set_stream initState world0 false = (0, initState, world0) :=
  ⟨rfl, imx307_set_stream_noop initState world0 false rfl⟩

lemma set_ctrl_state (s : Imx307) (w : World) (id : CtrlId) (v : Int) :
    (imx307_set_ctrl s w id v).2.1 = set_ctrl_precompute s id v := by
  unfold imx307_set_ctrl
  dsimp only
  split <;> rfl

lemma precompute_fields (s : Imx307) (id : CtrlId) (v : Int) :
    (set_ctrl_precompute s id v).streaming = s.streaming ∧
    (set_ctrl_precompute s id v).hflip = s.hflip ∧
    (set_ctrl_precompute s id v).vflip = s.vflip ∧
    (set_ctrl_precompute s id v).fmt_code = s.fmt_code ∧
    (set_ctrl_precompute s id v).modeIdx = s.modeIdx ∧
    (set_ctrl_precompute s id v).vblank = s.vblank ∧
    (set_ctrl_precompute s id v).hblank = s.hblank := by
  unfold set_ctrl_precompute
  split <;> exact ⟨rfl, rfl, rfl, rfl, rfl, rfl, rfl⟩

lemma set_ctrl_fields (s : Imx307) (w : World) (id : CtrlId) (v : Int) :
    (imx307_set_ctrl s w id v).2.1.streaming = s.streaming ∧
    (imx307_set_ctrl s w id v).2.1.hflip = s.hflip ∧
    (imx307_set_ctrl s w id v).2.1.vflip = s.vflip ∧
    (imx307_set_ctrl s w id v).2.1.fmt_code = s.fmt_code ∧
    (imx307_set_ctrl s w id v).2.1.modeIdx = s.modeIdx ∧
    (imx307_set_ctrl s w id v).2.1.vblank = s.vblank ∧
    (imx307_set_ctrl s w id v).2.1.hblank = s.hblank := by
  rw [set_ctrl_state]
  exact precompute_fields s id v

lemma write_reg_world (w : World) (reg len v : Nat) :
    (imx307_write_reg w reg len v).2.usage = w.usage ∧
    (imx307_write_reg w reg len v).2.powerOnCalls = w.powerOnCalls ∧
    (imx307_write_reg w reg len v).2.powerOffCalls = w.powerOffCalls ∧
    (imx307_write_reg w reg len v).2.errLogs = w.errLogs ∧
    (imx307_write_reg w reg len v).2.busOk = w.busOk := by
  unfold imx307_write_reg
  split_ifs <;> exact ⟨rfl, rfl, rfl, rfl, rfl⟩

lemma set_ctrl_hw_world (s : Imx307) (w : World) (id : CtrlId) (v : Int) :
    (set_ctrl_hw s w id v).2.usage = w.usage ∧
    (set_ctrl_hw s w id v).2.powerOnCalls = w.powerOnCalls ∧
    (set_ctrl_hw s w id v).2.powerOffCalls = w.powerOffCalls ∧
    (set_ctrl_hw s w id v).2.errLogs = w.errLogs ∧
    (set_ctrl_hw s w id v).2.busOk = w.busOk := by
  cases id <;> simp only [set_ctrl_hw] <;> first
    | apply write_reg_world
    | simp

lemma set_ctrl_world (s : Imx307) (w : World) (id : CtrlId) (v : Int) :
    (imx307_set_ctrl s w id v).2.2.usage = w.usage ∧
    (imx307_set_ctrl s w id v).2.2.powerOnCalls = w.powerOnCalls ∧
    (imx307_set_ctrl s w id v).2.2.powerOffCalls = w.powerOffCalls ∧
    (imx307_set_ctrl s w id v).2.2.errLogs = w.errLogs ∧
    (imx307_set_ctrl s w id v).2.2.busOk = w.busOk := by
  unfold imx307_set_ctrl
  by_cases h : w.usage = 0
  · simp [pm_runtime_get_if_in_use, h]
  · obtain ⟨q1, q2, q3, q4, q5⟩ :=
      set_ctrl_hw_world (set_ctrl_precompute s id v)
        { w with usage := w.usage + 1 } id v
    simp only [pm_runtime_get_if_in_use, if_neg h]
    simp only [Bool.true_eq_false, if_false, ite_false]
    unfold pm_runtime_put
    split_ifs with h2
    · exfalso
      rw [q1] at h2
      simp at h2
      omega
    · refine ⟨?_, ?_, ?_, ?_, ?_⟩ <;> dsimp only <;>
        simp only [q1, q2, q3, q4, q5] <;> simp

lemma setup_go_fields : ∀ (ids : List CtrlId) (s : Imx307) (w : World),
    (ctrl_handler_setup_go s w ids).2.1.streaming = s.streaming ∧
    (ctrl_handler_setup_go s w ids).2.1.hflip = s.hflip ∧
    (ctrl_handler_setup_go s w ids).2.1.vflip = s.vflip ∧
    (ctrl_handler_setup_go s w ids).2.1.fmt_code = s.fmt_code ∧
    (ctrl_handler_setup_go s w ids).2.1.modeIdx = s.modeIdx := by
  intro ids
  induction ids with
  | nil => intro s w; simp [ctrl_handler_setup_go]
  | cons id rest ih =>
    intro s w
    obtain ⟨f1, f2, f3, f4, f5, f6, f7⟩ :=
      set_ctrl_fields s w id (getCtrl s id).val
    simp only [ctrl_handler_setup_go]
    split_ifs with hret
    · obtain ⟨g1, g2, g3, g4, g5⟩ :=
        ih (imx307_set_ctrl s w id (getCtrl s id).val).2.1
           (imx307_set_ctrl s w id (getCtrl s id).val).2.2
      exact ⟨g1.trans f1, g2.trans f2, g3.trans f3, g4.trans f4, g5.trans f5⟩
    · exact ⟨f1, f2, f3, f4, f5⟩

lemma setup_go_world : ∀ (ids : List CtrlId) (s : Imx307) (w : World),
    (ctrl_handler_setup_go s w ids).2.2.usage = w.usage ∧
    (ctrl_handler_setup_go s w ids).2.2.powerOnCalls = w.powerOnCalls ∧
    (ctrl_handler_setup_go s w ids).2.2.powerOffCalls = w.powerOffCalls ∧
    (ctrl_handler_setup_go s w ids).2.2.errLogs = w.errLogs ∧
    (ctrl_handler_setup_go s w ids).2.2.busOk = w.busOk := by
  intro ids
  induction ids with
  | nil => intro s w; simp [ctrl_handler_setup_go]
  | cons id rest ih =>
    intro s w
    obtain ⟨f1, f2, f3, f4, f5⟩ := set_ctrl_world s w id (getCtrl s id).val
    simp only [ctrl_handler_setup_go]
    split_ifs with hret
    · obtain ⟨g1, g2, g3, g4, g5⟩ :=
        ih (imx307_set_ctrl s w id (getCtrl s id).val).2.1
           (imx307_set_ctrl s w id (getCtrl s id).val).2.2
      exact ⟨g1.trans f1, g2.trans f2, g3.trans f3, g4.trans f4, g5.trans f5⟩
    · exact ⟨f1, f2, f3, f4, f5⟩

lemma write_regs_world : ∀ (l : List imx307_reg) (w : World),
    (imx307_write_regs w l).2.2.usage = w.usage ∧
    (imx307_write_regs w l).2.2.powerOnCalls = w.powerOnCalls ∧
    (imx307_write_regs w l).2.2.powerOffCalls = w.powerOffCalls ∧
    (imx307_write_regs w l).2.2.errLogs = w.errLogs ∧
    (imx307_write_regs w l).2.2.busOk = w.busOk := by
  intro l
  induction l with
  | nil => intro w; simp [imx307_write_regs]
  | cons r rest ih =>
    intro w
    obtain ⟨f1, f2, f3, f4, f5⟩ := write_reg_world w r.address 1 r.val
    simp only [imx307_write_regs]
    split_ifs with hret
    · obtain ⟨g1, g2, g3, g4, g5⟩ := ih (imx307_write_reg w r.address 1 r.val).2
      exact ⟨g1.trans f1, g2.trans f2, g3.trans f3, g4.trans f4, g5.trans f5⟩
    · exact ⟨f1, f2, f3, f4, f5⟩

lemma set_framefmt_world (s : Imx307) (w : World) :
    (imx307_set_framefmt s w).2.2.usage = w.usage ∧
    (imx307_set_framefmt s w).2.2.powerOnCalls = w.powerOnCalls ∧
    (imx307_set_framefmt s w).2.2.powerOffCalls = w.powerOffCalls ∧
    (imx307_set_framefmt s w).2.2.errLogs = w.errLogs ∧
    (imx307_set_framefmt s w).2.2.busOk = w.busOk := by
  unfold imx307_set_framefmt
  rcases framefmt_case s.fmt_code with _ | b
  · simp
  · rcases b <;> simp [write_regs_world]

lemma after_setup_state (s : Imx307) (w : World) :
    (imx307_start_after_setup s w).2.1.streaming = s.streaming ∧
    (imx307_start_after_setup s w).2.1.fmt_code = s.fmt_code ∧
    (imx307_start_after_setup s w).2.1.modeIdx = s.modeIdx ∧
    ((imx307_start_after_setup s w).1 = 0 →
      (imx307_start_after_setup s w).2.1.hflip.grabbed = true ∧
      (imx307_start_after_setup s w).2.1.vflip.grabbed = true) ∧
    ((imx307_start_after_setup s w).1 ≠ 0 →
      (imx307_start_after_setup s w).2.1.hflip = s.hflip ∧
      (imx307_start_after_setup s w).2.1.vflip = s.vflip) := by
  unfold imx307_start_after_setup
  dsimp only
  split_ifs with h
  · exact ⟨rfl, rfl, rfl, fun h0 => absurd h0 h, fun _ => ⟨rfl, rfl⟩⟩
  · rw [grab_state]
    exact ⟨rfl, rfl, rfl, fun _ => ⟨rfl, rfl⟩, fun h0 => absurd rfl h0⟩

lemma after_fmt_state (s : Imx307) (w : World) :
    (imx307_start_after_fmt s w).2.1.streaming = s.streaming ∧
    (imx307_start_after_fmt s w).2.1.fmt_code = s.fmt_code ∧
    (imx307_start_after_fmt s w).2.1.modeIdx = s.modeIdx ∧
    ((imx307_start_after_fmt s w).1 = 0 →
      (imx307_start_after_fmt s w).2.1.hflip.grabbed = true ∧
      (imx307_start_after_fmt s w).2.1.vflip.grabbed = true) ∧
    ((imx307_start_after_fmt s w).1 ≠ 0 →
      (imx307_start_after_fmt s w).2.1.hflip = s.hflip ∧
      (imx307_start_after_fmt s w).2.1.vflip = s.vflip) := by
  obtain ⟨g1, g2, g3, g4, g5⟩ := setup_go_fields replay_ids s w
  unfold imx307_start_after_fmt
  simp only [v4l2_ctrl_handler_setup]
  try dsimp only
  split_ifs with h
  · refine ⟨g1, g4, g5, fun h0 => absurd h0 h, fun _ => ⟨g2, g3⟩⟩
  · obtain ⟨f1, f2, f3, f4, f5⟩ := after_setup_state
      (ctrl_handler_setup_go s w replay_ids).2.1
      (ctrl_handler_setup_go s w replay_ids).2.2
    refine ⟨f1.trans g1, f2.trans g4, f3.trans g5, f4, ?_⟩
    intro h0
    obtain ⟨e1, e2⟩ := f5 h0
    exact ⟨e1.trans g2, e2.trans g3⟩

lemma after_regs_state (s : Imx307) (w : World) :
    (imx307_start_after_regs s w).2.1.streaming = s.streaming ∧
    (imx307_start_after_regs s w).2.1.fmt_code = s.fmt_code ∧
    (imx307_start_after_regs s w).2.1.modeIdx = s.modeIdx ∧
    ((imx307_start_after_regs s w).1 = 0 →
      (imx307_start_after_regs s w).2.1.hflip.grabbed = true ∧
      (imx307_start_after_regs s w).2.1.vflip.grabbed = true) ∧
    ((imx307_start_after_regs s w).1 ≠ 0 →
      (imx307_start_after_regs s w).2.1.hflip = s.hflip ∧
      (imx307_start_after_regs s w).2.1.vflip = s.vflip) := by
  unfold imx307_start_after_regs
  dsimp only
  split_ifs with h
  · exact ⟨rfl, rfl, rfl, fun h0 => absurd h0 h, fun _ => ⟨rfl, rfl⟩⟩
  · exact after_fmt_state s (imx307_set_framefmt s w).2.2

lemma after_power_state (s : Imx307) (w : World) :
    (imx307_start_after_power s w).2.1.streaming = s.streaming ∧
    (imx307_start_after_power s w).2.1.fmt_code = s.fmt_code ∧
    (imx307_start_after_power s w).2.1.modeIdx = s.modeIdx ∧
    ((imx307_start_after_power s w).1 = 0 →
      (imx307_start_after_power s w).2.1.hflip.grabbed = true ∧
      (imx307_start_after_power s w).2.1.vflip.grabbed = true) ∧
    ((imx307_start_after_power s w).1 ≠ 0 →
      (imx307_start_after_power s w).2.1.hflip = s.hflip ∧
      (imx307_start_after_power s w).2.1.vflip = s.vflip) := by
  unfold imx307_start_after_power
  dsimp only
  split_ifs with h
  · exact ⟨rfl, rfl, rfl, fun h0 => absurd h0 h, fun _ => ⟨rfl, rfl⟩⟩
  · exact after_regs_state s (imx307_write_regs w (currentMode s).reg_list).2.2

lemma start_streaming_state (s : Imx307) (w : World) :
    (imx307_start_streaming s w).2.1.streaming = s.streaming ∧
    (imx307_start_streaming s w).2.1.fmt_code = s.fmt_code ∧
    (imx307_start_streaming s w).2.1.modeIdx = s.modeIdx ∧
    ((imx307_start_streaming s w).1 = 0 →
      (imx307_start_streaming s w).2.1.hflip.grabbed = true ∧
      (imx307_start_streaming s w).2.1.vflip.grabbed = true) ∧
    ((imx307_start_streaming s w).1 ≠ 0 →
      (imx307_start_streaming s w).2.1.hflip = s.hflip ∧
      (imx307_start_streaming s w).2.1.vflip = s.vflip) := by
  unfold imx307_start_streaming
  try dsimp only
  split_ifs with h
  · exact ⟨rfl, rfl, rfl, fun h0 => absurd (h0 ▸ h) (by norm_num), fun _ => ⟨rfl, rfl⟩⟩
  · exact after_power_state s (pm_runtime_get_sync w).2

/-- Claim C9: a suspend while streaming executes the stop sequence as
an explicit caller would while keeping the streaming flag as the
pre-suspend marker; suspend and resume while stopped perform no
streaming transition; resume while the marker is set re-invokes the
start sequence, and when that start fails the state machine runs the
stop sequence, clears the streaming flag to false (forced STOPPED,
flip controls unfrozen) and surfaces the failure. -/
theorem imx307_suspend_resume_spec :
    (∀ s w, s.streaming = true →
      imx307_suspend s w =
        (0, (imx307_stop_streaming s w).1, (imx307_stop_streaming s w).2) ∧
      (imx307_suspend s w).2.1.streaming = true) ∧
    (∀ s w, s.streaming = false →
      imx307_suspend s w = (0, s, w) ∧ imx307_resume s w = (0, s, w)) ∧
    (∀ s w, s.streaming = true → (imx307_start_streaming s w).1 = 0 →
      imx307_resume s w =
        (0, (imx307_start_streaming s w).2.1, (imx307_start_streaming s w).2.2) ∧
      (imx307_resume s w).2.1.streaming = true) ∧
    (∀ s w, s.streaming = true → (imx307_start_streaming s w).1 ≠ 0 →
      (imx307_resume s w).1 = (imx307_start_streaming s w).1 ∧
      (imx307_resume s w).2.1.streaming = false ∧
      (imx307_resume s w).2.1.hflip.grabbed = false ∧
      (imx307_resume s w).2.1.vflip.grabbed = false) := by
  refine ⟨?_, ?_, ?_, ?_⟩
  · intro s w h
    constructor
    · simp [imx307_suspend, h]
    · simp [imx307_suspend, h, stop_streaming_state]
  · intro s w h
    constructor <;> simp [imx307_suspend, imx307_resume, h]
  · intro s w h h0
    constructor
    · simp [imx307_resume, h, h0]
    · simp only [imx307_resume, h, if_true, if_neg (by simp [h0] : ¬(imx307_start_streaming s w).1 ≠ 0)]
      rw [(start_streaming_state s w).1, h]
  · intro s w h h0
    refine ⟨?_, ?_, ?_, ?_⟩ <;> simp [imx307_resume, h, h0, stop_streaming_state]

/-- Claim C5: stopping from the STREAMING state always ends STOPPED
with the flip controls unfrozen and the power reference released,
whether or not the hardware streaming-disable write succeeds; a
failing disable write is logged (error log bumped) but does not abort
the remaining steps, and the stop call itself reports success. -/
theorem imx307_stop_spec (s : Imx307) (w : World) (h : s.streaming = true) :
    (imx307_set_stream s w false).1 = 0 ∧
    (imx307_set_stream s w false).2.1.streaming = false ∧
    (imx307_set_stream s w false).2.1.hflip.grabbed = false ∧
    (imx307_set_stream s w false).2.1.vflip.grabbed = false ∧
    (imx307_set_stream s w false).2.2.usage = w.usage - 1 ∧
    (w.usage = 1 → (imx307_set_stream s w false).2.2.powerOffCalls = w.powerOffCalls + 1) ∧
    (imx307_set_stream s w false).2.2.errLogs =
      (if w.busOk w.busCount then w.errLogs else w.errLogs + 1) := by
  have hs := stop_streaming_state s w
  have hw := stop_streaming_world s w
  simp only [imx307_set_stream, h, Bool.true_eq_false, if_false, ite_false]
  refine ⟨rfl, rfl, ?_, ?_, hw.1, hw.2.1, hw.2.2⟩
  · show (imx307_stop_streaming s w).1.hflip.grabbed = false
    rw [hs]
  · show (imx307_stop_streaming s w).1.vflip.grabbed = false
    rw [hs]

/-- Witness for C5: stopping the streaming test state with one power
reference held and a bus that fails the disable write still reports
success, ends STOPPED and unfrozen, releases power (power_off runs
exactly once) and logs the failure. -/
theorem imx307_stop_spec_witness :
    sStreaming.streaming = true ∧
    (imx307_set_stream sStreaming { wFail5 with usage := 1 } false).1 = 0 ∧
    (imx307_set_stream sStreaming { wFail5 with usage := 1 } false).2.1.streaming = false ∧
    (imx307_set_stream sStreaming { wFail5 with usage := 1 } false).2.1.hflip.grabbed = false ∧
    (imx307_set_stream sStreaming { wFail5 with usage := 1 } false).2.2.usage = 0 ∧
    (imx307_set_stream sStreaming { wFail5 with usage := 1 } false).2.2.powerOffCalls = 1 := by
  have h := imx307_stop_spec sStreaming { wFail5 with usage := 1 } rfl
  exact ⟨rfl, h.1, h.2.1, h.2.2.1, h.2.2.2.2.1, h.2.2.2.2.2.1 rfl⟩

/-- Witness for C9: concrete suspend and resume runs at the streaming
test state — suspend keeps the marker, suspend while stopped is a
no-op, a resume whose restart fails with a broken bus forces the
streaming flag to false. -/
theorem imx307_suspend_resume_spec_witness :
    (sStreaming.streaming = true ∧
     (imx307_suspend sStreaming world0).2.1.streaming = true) ∧
    (initState.streaming = false ∧
     imx307_suspend initState world0 = (0, initState, world0)) ∧
    ((imx307_start_streaming sStreaming wFail5).1 ≠ 0 ∧
     (imx307_resume sStreaming wFail5).2.1.streaming = false ∧
     (imx307_resume sStreaming wFail5).2.1.hflip.grabbed = false) :=
  ⟨⟨rfl, (imx307_suspend_resume_spec.1 sStreaming world0 rfl).2⟩,
   ⟨rfl, (imx307_suspend_resume_spec.2.1 initState world0 rfl).1⟩,
   ⟨by decide,
    (imx307_suspend_resume_spec.2.2.2 sStreaming wFail5 rfl (by decide)).2.1,
    (imx307_suspend_resume_spec.2.2.2 sStreaming wFail5 rfl (by decide)).2.2.1⟩⟩

lemma write_regs_abort :
    ∀ (regs : List imx307_reg) (w : World) (k : Nat) (hk : k < regs.length),
    (∀ j, j < k → w.busOk (w.busCount + j) = true) →
    w.busOk (w.busCount + k) = false →
    imx307_write_regs w regs =
      (-5, some (regs.get ⟨k, hk⟩).address, { w with busCount := w.busCount + (k + 1) }) := by
  intro regs
  induction regs with
  | nil => intro w k hk; exact absurd hk (by simp)
  | cons r rest ih =>
    intro w k hk hpre hfail
    cases k with
    | zero =>
      rw [Nat.add_zero] at hfail
      simp [imx307_write_regs, imx307_write_reg, hfail]
    | succ k =>
      have h0 : w.busOk w.busCount = true := by
        have := hpre 0 (Nat.succ_pos k)
        simpa using this
      have hrec := ih { w with busCount := w.busCount + 1 } k
        (by simpa using Nat.lt_of_succ_lt_succ hk)
        (by
          intro j hj
          have := hpre (j + 1) (Nat.succ_lt_succ hj)
          simpa [Nat.add_assoc, Nat.add_comm 1 j] using this)
        (by
          have : w.busCount + 1 + k = w.busCount + (k + 1) := by omega
          simpa [this] using hfail)
      simp only [imx307_write_regs, imx307_write_reg]
      rw [if_neg (by norm_num : ¬ (4 < 1))]
      rw [h0]
      simp only [if_true, ite_true]
      rw [hrec]
      have : w.busCount + 1 + (k + 1) = w.busCount + (k + 1 + 1) := by omega
      simp [this]

lemma after_setup_cases (s : Imx307) (w : World) (hu : w.usage = 1) :
    ((imx307_start_after_setup s w).1 = 0 ∧
     (imx307_start_after_setup s w).2.2.usage = 1 ∧
     (imx307_start_after_setup s w).2.2.powerOffCalls = w.powerOffCalls ∧
     (imx307_start_after_setup s w).2.2.powerOnCalls = w.powerOnCalls) ∨
    ((imx307_start_after_setup s w).1 ≠ 0 ∧
     (imx307_start_after_setup s w).2.2.usage = 0 ∧
     (imx307_start_after_setup s w).2.2.powerOffCalls = w.powerOffCalls + 1 ∧
     (imx307_start_after_setup s w).2.2.powerOnCalls = w.powerOnCalls) := by
  obtain ⟨d1, d2, d3, d4, d5⟩ :=
    write_reg_world w imx307_REG_MODE_SELECT 1 imx307_MODE_STREAMING
  unfold imx307_start_after_setup
  dsimp only
  split_ifs with h
  · right
    refine ⟨h, ?_, ?_, ?_⟩ <;> simp [pm_runtime_put, d1, d2, d3, hu]
  · exact Or.inl ⟨rfl, d1.trans hu, d3, d2⟩

lemma after_fmt_cases (s : Imx307) (w : World) (hu : w.usage = 1) :
    ((imx307_start_after_fmt s w).1 = 0 ∧
     (imx307_start_after_fmt s w).2.2.usage = 1 ∧
     (imx307_start_after_fmt s w).2.2.powerOffCalls = w.powerOffCalls ∧
     (imx307_start_after_fmt s w).2.2.powerOnCalls = w.powerOnCalls) ∨
    ((imx307_start_after_fmt s w).1 ≠ 0 ∧
     (imx307_start_after_fmt s w).2.2.usage = 0 ∧
     (imx307_start_after_fmt s w).2.2.powerOffCalls = w.powerOffCalls + 1 ∧
     (imx307_start_after_fmt s w).2.2.powerOnCalls = w.powerOnCalls) := by
  obtain ⟨c1, c2, c3, c4, c5⟩ := setup_go_world replay_ids s w
  unfold imx307_start_after_fmt
  simp only [v4l2_ctrl_handler_setup]
  try dsimp only
  split_ifs with h
  · right
    refine ⟨h, ?_, ?_, ?_⟩ <;> simp [pm_runtime_put, c1, c2, c3, hu]
  · rcases after_setup_cases (ctrl_handler_setup_go s w replay_ids).2.1
        (ctrl_handler_setup_go s w replay_ids).2.2 (c1.trans hu) with
      ⟨f0, f1, f2, f3⟩ | ⟨f0, f1, f2, f3⟩
    · exact Or.inl ⟨f0, f1, f2.trans c3, f3.trans c2⟩
    · exact Or.inr ⟨f0, f1, by rw [f2, c3], f3.trans c2⟩

lemma after_regs_cases (s : Imx307) (w : World) (hu : w.usage = 1) :
    ((imx307_start_after_regs s w).1 = 0 ∧
     (imx307_start_after_regs s w).2.2.usage = 1 ∧
     (imx307_start_after_regs s w).2.2.powerOffCalls = w.powerOffCalls ∧
     (imx307_start_after_regs s w).2.2.powerOnCalls = w.powerOnCalls) ∨
    ((imx307_start_after_regs s w).1 ≠ 0 ∧
     (imx307_start_after_regs s w).2.2.usage = 0 ∧
     (imx307_start_after_regs s w).2.2.powerOffCalls = w.powerOffCalls + 1 ∧
     (imx307_start_after_regs s w).2.2.powerOnCalls = w.powerOnCalls) := by
  obtain ⟨b1, b2, b3, b4, b5⟩ := set_framefmt_world s w
  unfold imx307_start_after_regs
  dsimp only
  split_ifs with h
  · right
    refine ⟨h, ?_, ?_, ?_⟩ <;> simp [pm_runtime_put, b1, b2, b3, hu]
  · rcases after_fmt_cases s (imx307_set_framefmt s w).2.2 (b1.trans hu) with
      ⟨f0, f1, f2, f3⟩ | ⟨f0, f1, f2, f3⟩
    · exact Or.inl ⟨f0, f1, f2.trans b3, f3.trans b2⟩
    · exact Or.inr ⟨f0, f1, by rw [f2, b3], f3.trans b2⟩

lemma after_power_cases (s : Imx307) (w : World) (hu : w.usage = 1) :
    ((imx307_start_after_power s w).1 = 0 ∧
     (imx307_start_after_power s w).2.2.usage = 1 ∧
     (imx307_start_after_power s w).2.2.powerOffCalls = w.powerOffCalls ∧
     (imx307_start_after_power s w).2.2.powerOnCalls = w.powerOnCalls) ∨
    ((imx307_start_after_power s w).1 ≠ 0 ∧
     (imx307_start_after_power s w).2.2.usage = 0 ∧
     (imx307_start_after_power s w).2.2.powerOffCalls = w.powerOffCalls + 1 ∧
     (imx307_start_after_power s w).2.2.powerOnCalls = w.powerOnCalls) := by
  obtain ⟨a1, a2, a3, a4, a5⟩ := write_regs_world (currentMode s).reg_list w
  unfold imx307_start_after_power
  dsimp only
  split_ifs with h
  · right
    refine ⟨h, ?_, ?_, ?_⟩ <;> simp [pm_runtime_put, a1, a2, a3, hu]
  · rcases after_regs_cases s
        (imx307_write_regs w (currentMode s).reg_list).2.2 (a1.trans hu) with
      ⟨f0, f1, f2, f3⟩ | ⟨f0, f1, f2, f3⟩
    · exact Or.inl ⟨f0, f1, f2.trans a3, f3.trans a2⟩
    · exact Or.inr ⟨f0, f1, by rw [f2, a3], f3.trans a2⟩

lemma start_streaming_cases (s : Imx307) (w : World)
    (hu : w.usage = 0) (hp : w.powerOnOk = true) :
    (imx307_start_streaming s w).1 = 0 ∨
    ((imx307_start_streaming s w).1 ≠ 0 ∧
     (imx307_start_streaming s w).2.2.usage = 0 ∧
     (imx307_start_streaming s w).2.2.powerOffCalls = w.powerOffCalls + 1 ∧
     (imx307_start_streaming s w).2.2.powerOnCalls = w.powerOnCalls + 1) := by
  have hget : pm_runtime_get_sync w =
      (0, { w with usage := 1, powerOnCalls := w.powerOnCalls + 1 }) := by
    unfold pm_runtime_get_sync
    rw [if_pos hu, if_pos hp]
    simp [hu]
  unfold imx307_start_streaming
  rw [hget]
  try dsimp only
  rw [if_neg (by norm_num : ¬ ((0 : Int) < 0))]
  rcases after_power_cases s
      { w with usage := 1, powerOnCalls := w.powerOnCalls + 1 } rfl with
    ⟨f0, f1, f2, f3⟩ | ⟨f0, f1, f2, f3⟩
  · exact Or.inl f0
  · exact Or.inr ⟨f0, f1, by rw [f2], by rw [f3]⟩

/-- Claim C3: whenever a stream start fails after power was acquired
successfully — at the mode register table (whose write loop aborts at
the first failure and reports the failing register address), at the
format registers, at the control replay, or at the streaming-enable
write — the acquired power reference is released and power_off runs
exactly once, the streaming state remains STOPPED, and the flip
controls are left unfrozen. -/
theorem imx307_start_fail_spec :
    (∀ (s : Imx307) (w : World),
      s.streaming = false → s.hflip.grabbed = false → s.vflip.grabbed = false →
      w.usage = 0 → w.powerOnOk = true →
      (imx307_set_stream s w true).1 ≠ 0 →
      (imx307_set_stream s w true).2.2.powerOffCalls = w.powerOffCalls + 1 ∧
      (imx307_set_stream s w true).2.2.powerOnCalls = w.powerOnCalls + 1 ∧
      (imx307_set_stream s w true).2.2.usage = 0 ∧
      (imx307_set_stream s w true).2.1.streaming = false ∧
      (imx307_set_stream s w true).2.1.hflip.grabbed = false ∧
      (imx307_set_stream s w true).2.1.vflip.grabbed = false) ∧
    (∀ (w : World) (regs : List imx307_reg) (k : Nat) (hk : k < regs.length),
      (∀ j, j < k → w.busOk (w.busCount + j) = true) →
      w.busOk (w.busCount + k) = false →
      imx307_write_regs w regs =
        (-5, some (regs.get ⟨k, hk⟩).address,
         { w with busCount := w.busCount + (k + 1) })) := by
  constructor
  · intro s w hs hh hv hu hp hfail
    rw [imx307_set_stream, if_neg (by simp [hs]), if_pos rfl] at hfail ⊢
    rcases start_streaming_cases s w hu hp with h0 | ⟨hne, u0, off1, on1⟩
    · rw [if_neg (by simp [h0])] at hfail
      exact absurd rfl hfail
    · rw [if_pos hne] at hfail ⊢
      obtain ⟨e1, e2, e3, e4, e5⟩ := start_streaming_state s w
      refine ⟨off1, on1, u0, e1.trans hs, ?_, ?_⟩
      · rw [(e5 hne).1]; exact hh
      · rw [(e5 hne).2]; exact hv
  · intro w regs k hk hpre hfail
    exact write_regs_abort regs w k hk hpre hfail

/-- Witness for C3: a transport failure at the fifth table entry of the
mode-0 register program — the start attempt fails, power_off runs
exactly once, the state stays STOPPED with flips unfrozen, and the
aborting table write reports the address of the fifth entry (0x300b)
having consumed exactly five bus writes. -/
theorem imx307_start_fail_spec_witness :
    ((imx307_set_stream initState wFail5 true).1 ≠ 0 ∧
     (imx307_set_stream initState wFail5 true).2.2.powerOffCalls = 1 ∧
     (imx307_set_stream initState wFail5 true).2.2.usage = 0 ∧
     (imx307_set_stream initState wFail5 true).2.1.streaming = false ∧
     (imx307_set_stream initState wFail5 true).2.1.hflip.grabbed = false) ∧
    imx307_write_regs wFail5 mode_3280x2464_regs =
      (-5, some 0x300b, { wFail5 with busCount := 5 }) := by
  have h1 := (imx307_start_fail_spec.1 initState wFail5 rfl rfl rfl rfl rfl (by decide))
  have h2 := imx307_start_fail_spec.2 wFail5 mode_3280x2464_regs 4 (by decide)
      (by decide) (by decide)
  exact ⟨⟨by decide, h1.1, h1.2.2.1, h1.2.2.2.1, h1.2.2.2.2.1⟩, by rw [h2]; rfl⟩

lemma findIdx_all_false {p : Nat → Bool} :
    ∀ l : List Nat, (∀ x ∈ l, p x = false) → l.findIdx p = l.length := by
  intro l
  induction l with
  | nil => intro h; rfl
  | cons a t ih =>
    intro h
    rw [List.findIdx_cons, h a (by simp)]
    simp [ih fun x hx => h x (by simp [hx])]

lemma findIdxQ_all_false {p : Nat → Bool} :
    ∀ l : List Nat, (∀ x ∈ l, p x = false) → l.findIdx? p = none := by
  intro l
  induction l with
  | nil => intro h; rfl
  | cons a t ih =>
    intro h
    rw [List.findIdx?_cons, h a (by simp)]
    simp [ih fun x hx => h x (by simp [hx])]

lemma base_index_eq (code : Nat) :
    (if codes.length ≤ codes.findIdx (fun c => c == code) then 0
     else codes.findIdx (fun c => c == code)) = spec_base_index code ∧
    spec_base_index code < 8 := by
  by_cases hm : code ∈ codes
  · simp only [codes, MEDIA_BUS_FMT_SRGGB10_1X10, MEDIA_BUS_FMT_SGRBG10_1X10,
      MEDIA_BUS_FMT_SGBRG10_1X10, MEDIA_BUS_FMT_SBGGR10_1X10,
      MEDIA_BUS_FMT_SRGGB8_1X8, MEDIA_BUS_FMT_SGRBG8_1X8,
      MEDIA_BUS_FMT_SGBRG8_1X8, MEDIA_BUS_FMT_SBGGR8_1X8,
      List.mem_cons, List.not_mem_nil, or_false] at hm
    rcases hm with rfl | rfl | rfl | rfl | rfl | rfl | rfl | rfl <;> decide
  · have hall : ∀ x ∈ codes, (x == code) = false := by
      intro x hx
      exact beq_eq_false_iff_ne.mpr fun e => hm (e ▸ hx)
    have hall2 : ∀ x ∈ codes, (code == x) = false := by
      intro x hx
      exact beq_eq_false_iff_ne.mpr fun e => hm (e ▸ hx)
    constructor
    · rw [findIdx_all_false _ hall]
      simp [spec_base_index, findIdxQ_all_false _ hall2]
    · simp [spec_base_index, findIdxQ_all_false _ hall2]

lemma getD_mem_of_lt {α : Type} : ∀ (l : List α) (i : Nat) (d : α), i < l.length → l.getD i d ∈ l := by
  intro l
  induction l with
  | nil => intro i d h; simp at h
  | cons a t ih =>
    intro i d h
    cases i with
    | zero => simp
    | succ i =>
      rw [List.getD_cons_succ]
      exact List.mem_cons_of_mem a (ih i d (by simpa using Nat.lt_of_succ_lt_succ h))

lemma get_format_code_mem (s : Imx307) (code : Nat) :
    imx307_get_format_code s code ∈ codes := by
  obtain ⟨hb, hlt⟩ := base_index_eq code
  have hmain : imx307_get_format_code s code =
      codes.getD ((spec_base_index code &&& 0xfffffffc) |||
        (if s.vflip.val ≠ 0 then 2 else 0) |||
        (if s.hflip.val ≠ 0 then 1 else 0)) 0 := by
    dsimp only [imx307_get_format_code]
    rw [hb]
  rw [hmain]
  have hsmall : ∀ b : Nat, b < 8 → ∀ v2 : Nat, v2 ≤ 2 → ∀ h1 : Nat, h1 ≤ 1 →
      ((b &&& 0xfffffffc) ||| v2 ||| h1) < 8 := by decide
  apply getD_mem_of_lt
  have h8 : codes.length = 8 := by decide
  rw [h8]
  apply hsmall _ hlt
  · split_ifs <;> omega
  · split_ifs <;> omega

/-- Claim C2: for every requested code and every flip pair, the
resolver returns codes[(base & ~3) | (vflip ? 2 : 0) | (hflip ? 1 : 0)]
where base is the index of the first table entry equal to the
requested code, or 0 when the code is absent (a permissive default,
not an error); the result is always a member of the table, and the
resolver is a pure, deterministic function of the requested code and
the stored flip values. -/
theorem imx307_get_format_code_spec (s : Imx307) (code : Nat) :
    imx307_get_format_code s code =
      codes.getD ((spec_base_index code &&& 0xfffffffc) |||
        (if s.vflip.val ≠ 0 then 2 else 0) |||
        (if s.hflip.val ≠ 0 then 1 else 0)) 0 ∧
    imx307_get_format_code s code ∈ codes ∧
    (∀ s2 : Imx307, s2.hflip.val = s.hflip.val → s2.vflip.val = s.vflip.val →
      imx307_get_format_code s2 code = imx307_get_format_code s code) := by
  obtain ⟨hb, hlt⟩ := base_index_eq code
  have hmain : imx307_get_format_code s code =
      codes.getD ((spec_base_index code &&& 0xfffffffc) |||
        (if s.vflip.val ≠ 0 then 2 else 0) |||
        (if s.hflip.val ≠ 0 then 1 else 0)) 0 := by
    dsimp only [imx307_get_format_code]
    rw [hb]
  refine ⟨hmain, get_format_code_mem s code, ?_⟩
  · intro s2 h1 h2
    dsimp only [imx307_get_format_code]
    rw [h1, h2]

lemma argminIdx_lt (f : Nat → Nat) : ∀ n, 0 < n → argminIdx f n < n := by
  intro n
  induction n with
  | zero => intro h; exact absurd h (by omega)
  | succ n ih =>
    intro _
    simp only [argminIdx]
    split_ifs with h
    · omega
    · rcases Nat.eq_zero_or_pos n with h0 | hp
      · subst h0; simp [argminIdx]
      · exact Nat.lt_succ_of_lt (ih hp)

lemma argminIdx_min (f : Nat → Nat) : ∀ n j, j < n → f (argminIdx f n) ≤ f j := by
  intro n
  induction n with
  | zero => intro j h; exact absurd h (by omega)
  | succ n ih =>
    intro j hj
    simp only [argminIdx]
    split_ifs with h
    · rcases Nat.lt_succ_iff_lt_or_eq.mp hj with hj2 | rfl
      · exact le_of_lt (lt_of_lt_of_le h (ih j hj2))
      · exact le_refl _
    · rcases Nat.lt_succ_iff_lt_or_eq.mp hj with hj2 | rfl
      · exact ih j hj2
      · exact not_lt.mp h

lemma argminIdx_first (f : Nat → Nat) :
    ∀ n j, j < n → f j = f (argminIdx f n) → argminIdx f n ≤ j := by
  intro n
  induction n with
  | zero => intro j h; omega
  | succ n ih =>
    intro j hj heq
    simp only [argminIdx] at heq ⊢
    split_ifs at heq ⊢ with h
    · rcases Nat.lt_succ_iff_lt_or_eq.mp hj with hj2 | rfl
      · exfalso
        have hmin := argminIdx_min f n j hj2
        omega
      · exact le_refl _
    · rcases Nat.lt_succ_iff_lt_or_eq.mp hj with hj2 | hj3
      · exact ih j hj2 heq
      · subst hj3
        rcases Nat.eq_zero_or_pos j with h0 | hp
        · subst h0; simp [argminIdx]
        · exact le_of_lt (argminIdx_lt f j hp)

lemma s_ctrl_driver_fields (s : Imx307) (w : World) (id : CtrlId) (v : Int) :
    (v4l2_ctrl_s_ctrl_driver s w id v).2.1.streaming = s.streaming ∧
    (v4l2_ctrl_s_ctrl_driver s w id v).2.1.fmt_code = s.fmt_code ∧
    (v4l2_ctrl_s_ctrl_driver s w id v).2.1.modeIdx = s.modeIdx ∧
    (v4l2_ctrl_s_ctrl_driver s w id v).2.1.hflip.grabbed = s.hflip.grabbed ∧
    (v4l2_ctrl_s_ctrl_driver s w id v).2.1.vflip.grabbed = s.vflip.grabbed := by
  cases id <;>
    simp [v4l2_ctrl_s_ctrl_driver, setCtrl, getCtrl, set_ctrl_state, set_ctrl_precompute]

lemma apply_mode_change_fields (s : Imx307) (w : World) (mIdx : Nat) (c : Nat) :
    (imx307_apply_mode_change s w mIdx c).1.modeIdx = mIdx ∧
    (imx307_apply_mode_change s w mIdx c).1.fmt_code = c ∧
    (imx307_apply_mode_change s w mIdx c).1.streaming = s.streaming ∧
    (imx307_apply_mode_change s w mIdx c).1.hflip.grabbed = s.hflip.grabbed ∧
    (imx307_apply_mode_change s w mIdx c).1.vflip.grabbed = s.vflip.grabbed := by
  unfold imx307_apply_mode_change
  dsimp only
  obtain ⟨f1, f2, f3, f4, f5⟩ := s_ctrl_driver_fields
    { s with fmt_code := c, fmt_width := (modeAt mIdx).width,
             fmt_height := (modeAt mIdx).height, modeIdx := mIdx,
             vblank := v4l2_ctrl_modify_range s.vblank (imx307_VBLANK_MIN : Int)
               ((imx307_VTS_MAX : Int) - ((modeAt mIdx).height : Int)) 1
               (((modeAt mIdx).vts_def : Int) - ((modeAt mIdx).height : Int)) }
    w .VBLANK (((modeAt mIdx).vts_def : Int) - ((modeAt mIdx).height : Int))
  exact ⟨f3, f2, f1, f4, f5⟩

lemma set_pad_format_active_modeIdx (s : Imx307) (cfg : TryCfg) (w : World)
    (rcode rqw rqh : Nat) :
    (imx307_set_pad_format s cfg w ⟨0, false, rcode, rqw, rqh⟩).2.1.modeIdx =
      v4l2_find_nearest_size rqw rqh := by
  dsimp only [imx307_set_pad_format]
  rw [if_neg (by norm_num), if_pos rfl]
  simp only [Bool.false_eq_true, if_false, ite_false]
  split_ifs with hch
  · exact (apply_mode_change_fields s w _ _).1
  · push_neg at hch
    exact hch.1

lemma get_pad_format_active_size (s : Imx307) (cfg : TryCfg) :
    (imx307_get_pad_format s cfg 0 false).2.1.width = (modeAt s.modeIdx).width ∧
    (imx307_get_pad_format s cfg 0 false).2.1.height = (modeAt s.modeIdx).height := by
  dsimp only [imx307_get_pad_format]
  rw [if_neg (by norm_num)]
  simp [currentMode]

/-- Claim C8: for every requested code and size, set_format followed by
get_current_format returns a format whose width and height are those of
the catalog mode nearest to the request under the city-block distance
metric — never the raw requested sizes unless the request matches a
catalog entry exactly — with ties broken in favor of the first-listed
catalog entry, and mode selection is total because the catalog is
non-empty. -/
theorem imx307_set_get_roundtrip (s : Imx307) (cfg : TryCfg) (w : World)
    (rcode rqw rqh : Nat) :
    v4l2_find_nearest_size rqw rqh < supported_modes.length ∧
    (∀ j, j < supported_modes.length →
      mode_dist (modeAt (v4l2_find_nearest_size rqw rqh)) rqw rqh ≤
        mode_dist (modeAt j) rqw rqh) ∧
    (∀ j, j < supported_modes.length →
      mode_dist (modeAt j) rqw rqh =
        mode_dist (modeAt (v4l2_find_nearest_size rqw rqh)) rqw rqh →
      v4l2_find_nearest_size rqw rqh ≤ j) ∧
    (imx307_get_pad_format
        (imx307_set_pad_format s cfg w ⟨0, false, rcode, rqw, rqh⟩).2.1
        (imx307_set_pad_format s cfg w ⟨0, false, rcode, rqw, rqh⟩).2.2.1
        0 false).2.1.width = (modeAt (v4l2_find_nearest_size rqw rqh)).width ∧
    (imx307_get_pad_format
        (imx307_set_pad_format s cfg w ⟨0, false, rcode, rqw, rqh⟩).2.1
        (imx307_set_pad_format s cfg w ⟨0, false, rcode, rqw, rqh⟩).2.2.1
        0 false).2.1.height = (modeAt (v4l2_find_nearest_size rqw rqh)).height ∧
    ((imx307_get_pad_format
        (imx307_set_pad_format s cfg w ⟨0, false, rcode, rqw, rqh⟩).2.1
        (imx307_set_pad_format s cfg w ⟨0, false, rcode, rqw, rqh⟩).2.2.1
        0 false).2.1.width = rqw ∧
     (imx307_get_pad_format
        (imx307_set_pad_format s cfg w ⟨0, false, rcode, rqw, rqh⟩).2.1
        (imx307_set_pad_format s cfg w ⟨0, false, rcode, rqw, rqh⟩).2.2.1
        0 false).2.1.height = rqh →
     ∃ m ∈ supported_modes, m.width = rqw ∧ m.height = rqh) := by
  have hlen : supported_modes.length = 4 := by decide
  have hlt : v4l2_find_nearest_size rqw rqh < supported_modes.length := by
    unfold v4l2_find_nearest_size
    exact argminIdx_lt _ _ (by omega)
  obtain ⟨g1, g2⟩ := get_pad_format_active_size
    (imx307_set_pad_format s cfg w ⟨0, false, rcode, rqw, rqh⟩).2.1
    (imx307_set_pad_format s cfg w ⟨0, false, rcode, rqw, rqh⟩).2.2.1
  have hm := set_pad_format_active_modeIdx s cfg w rcode rqw rqh
  have hw : (imx307_get_pad_format
      (imx307_set_pad_format s cfg w ⟨0, false, rcode, rqw, rqh⟩).2.1
      (imx307_set_pad_format s cfg w ⟨0, false, rcode, rqw, rqh⟩).2.2.1
      0 false).2.1.width = (modeAt (v4l2_find_nearest_size rqw rqh)).width := by
    rw [g1, hm]
  have hh : (imx307_get_pad_format
      (imx307_set_pad_format s cfg w ⟨0, false, rcode, rqw, rqh⟩).2.1
      (imx307_set_pad_format s cfg w ⟨0, false, rcode, rqw, rqh⟩).2.2.1
      0 false).2.1.height = (modeAt (v4l2_find_nearest_size rqw rqh)).height := by
    rw [g2, hm]
  refine ⟨hlt, ?_, ?_, hw, hh, ?_⟩
  · intro j hj
    have h2 := argminIdx_min (fun i => mode_dist (modeAt i) rqw rqh)
      supported_modes.length j hj
    simpa [v4l2_find_nearest_size] using h2
  · intro j hj heq
    have h2 := argminIdx_first (fun i => mode_dist (modeAt i) rqw rqh)
      supported_modes.length j hj (by simpa [v4l2_find_nearest_size] using heq)
    simpa [v4l2_find_nearest_size] using h2
  · intro hreq
    refine ⟨modeAt (v4l2_find_nearest_size rqw rqh), ?_, ?_, ?_⟩
    · exact getD_mem_of_lt _ _ _ hlt
    · rw [← hw]; exact hreq.1
    · rw [← hh]; exact hreq.2

/-- Claim C4: for every value X accepted for the vertical-blank control
while the active mode has height H, setting vertical-blank to X
recomputes, in the same operation, the exposure maximum to H + X - 4
and the exposure default to min(H + X - 4, EXPOSURE_DEFAULT), without a
mode change; the recomputation happens whether or not the device is
powered (the world, including its power usage count, is universally
quantified and the recomputed control set does not depend on it). -/
theorem imx307_vblank_recompute (s : Imx307) (w : World) (X : Int)
    (hg : s.vblank.grabbed = false) (hro : s.vblank.read_only = false)
    (hmin : s.vblank.minimum ≤ X) (hmax : X ≤ s.vblank.maximum) :
    (v4l2_ctrl_s_ctrl_user s w CtrlId.VBLANK X).2.1.exposure.maximum =
      ((currentMode s).height : Int) + X - 4 ∧
    (v4l2_ctrl_s_ctrl_user s w CtrlId.VBLANK X).2.1.exposure.default_value =
      min (((currentMode s).height : Int) + X - 4) (imx307_EXPOSURE_DEFAULT : Int) ∧
    (v4l2_ctrl_s_ctrl_user s w CtrlId.VBLANK X).2.1.vblank.val = X ∧
    (v4l2_ctrl_s_ctrl_user s w CtrlId.VBLANK X).2.1.modeIdx = s.modeIdx := by
  have hclamp : ctrl_clamp s.vblank.minimum s.vblank.maximum X = X := by
    unfold ctrl_clamp
    rw [min_eq_right hmax, max_eq_right hmin]
  unfold v4l2_ctrl_s_ctrl_user
  rw [if_neg (by simp [getCtrl, hg]), if_neg (by simp [getCtrl, hro])]
  unfold v4l2_ctrl_s_ctrl_driver
  dsimp only [getCtrl]
  rw [hclamp, set_ctrl_state]
  unfold set_ctrl_precompute
  rw [if_pos rfl]
  dsimp only [setCtrl]
  refine ⟨?_, ?_, rfl, rfl⟩
  · simp [v4l2_ctrl_modify_range, currentMode]
  · simp [v4l2_ctrl_modify_range, currentMode]
    rw [if_lt_eq_min]

lemma mode_vts_bounds :
    ∀ i, i < 4 → (4 : Int) ≤ ((modeAt i).vts_def : Int) - ((modeAt i).height : Int) ∧
      ((modeAt i).vts_def : Int) ≤ 65535 := by decide

lemma apply_mode_change_ctrls (s : Imx307) (w : World) (mIdx : Nat) (c : Nat)
    (hm : mIdx < 4) (hro : s.hblank.read_only = true) :
    (imx307_apply_mode_change s w mIdx c).1.vblank.minimum = (imx307_VBLANK_MIN : Int) ∧
    (imx307_apply_mode_change s w mIdx c).1.vblank.maximum =
      (imx307_VTS_MAX : Int) - ((modeAt mIdx).height : Int) ∧
    (imx307_apply_mode_change s w mIdx c).1.vblank.val =
      ((modeAt mIdx).vts_def : Int) - ((modeAt mIdx).height : Int) ∧
    (imx307_apply_mode_change s w mIdx c).1.exposure.maximum =
      ((modeAt mIdx).vts_def : Int) - 4 ∧
    (imx307_apply_mode_change s w mIdx c).1.exposure.default_value =
      min (((modeAt mIdx).vts_def : Int) - 4) (imx307_EXPOSURE_DEFAULT : Int) ∧
    (imx307_apply_mode_change s w mIdx c).1.hblank.minimum =
      (imx307_PPL_DEFAULT : Int) - ((modeAt mIdx).width : Int) ∧
    (imx307_apply_mode_change s w mIdx c).1.hblank.maximum =
      (imx307_PPL_DEFAULT : Int) - ((modeAt mIdx).width : Int) ∧
    (imx307_apply_mode_change s w mIdx c).1.hblank.val =
      (imx307_PPL_DEFAULT : Int) - ((modeAt mIdx).width : Int) ∧
    (imx307_apply_mode_change s w mIdx c).1.hblank.read_only = true := by
  obtain ⟨hb1, hb2⟩ := mode_vts_bounds mIdx hm
  have hclamp : ctrl_clamp (imx307_VBLANK_MIN : Int)
      ((imx307_VTS_MAX : Int) - ((modeAt mIdx).height : Int))
      (((modeAt mIdx).vts_def : Int) - ((modeAt mIdx).height : Int)) =
      ((modeAt mIdx).vts_def : Int) - ((modeAt mIdx).height : Int) := by
    unfold ctrl_clamp imx307_VBLANK_MIN imx307_VTS_MAX
    rw [min_eq_right (by push_cast; omega), max_eq_right (by push_cast at *; omega)]
  unfold imx307_apply_mode_change
  dsimp only
  unfold v4l2_ctrl_s_ctrl_driver
  dsimp only [getCtrl]
  rw [show (v4l2_ctrl_modify_range s.vblank (imx307_VBLANK_MIN : Int)
        ((imx307_VTS_MAX : Int) - ((modeAt mIdx).height : Int)) 1
        (((modeAt mIdx).vts_def : Int) - ((modeAt mIdx).height : Int))).minimum =
      (imx307_VBLANK_MIN : Int) from rfl]
  rw [show (v4l2_ctrl_modify_range s.vblank (imx307_VBLANK_MIN : Int)
        ((imx307_VTS_MAX : Int) - ((modeAt mIdx).height : Int)) 1
        (((modeAt mIdx).vts_def : Int) - ((modeAt mIdx).height : Int))).maximum =
      (imx307_VTS_MAX : Int) - ((modeAt mIdx).height : Int) from rfl]
  rw [hclamp, set_ctrl_state]
  unfold set_ctrl_precompute
  rw [if_pos rfl]
  dsimp only [setCtrl]
  refine ⟨rfl, rfl, rfl, rfl, ?_, rfl, rfl, ?_, hro⟩
  · dsimp [v4l2_ctrl_modify_range]
    rw [if_lt_eq_min]
  · dsimp [v4l2_ctrl_modify_range, ctrl_clamp]
    rw [max_eq_left (min_le_left _ _)]

lemma set_pad_format_change_eq (s : Imx307) (cfg : TryCfg) (w : World)
    (code rqw rqh : Nat)
    (hch : s.modeIdx ≠ v4l2_find_nearest_size rqw rqh ∨
           s.fmt_code ≠ imx307_get_format_code s (imx307_requested_code code)) :
    imx307_set_pad_format s cfg w ⟨0, false, code, rqw, rqh⟩ =
      (0, (imx307_apply_mode_change s w (v4l2_find_nearest_size rqw rqh)
            (imx307_get_format_code s (imx307_requested_code code))).1, cfg,
          (imx307_apply_mode_change s w (v4l2_find_nearest_size rqw rqh)
            (imx307_get_format_code s (imx307_requested_code code))).2) := by
  dsimp only [imx307_set_pad_format]
  rw [if_neg (by norm_num), if_pos rfl]
  simp only [Bool.false_eq_true, if_false, ite_false]
  rw [if_pos hch]

/-- Claim C1: after a successful active-path set_format that selects a
new mode M (mode or resolved format code changed), the control set
satisfies: vertical-blank range [VBLANK_MIN, VTS_MAX - M.height] with
value M.default_vts - M.height; exposure maximum M.default_vts - 4 and
default min(M.default_vts - 4, EXPOSURE_DEFAULT); horizontal-blank
minimum, maximum and value all equal to FIXED_LINE_PERIOD (3448) minus
M.width with the control read-only; and M stored as the active mode. -/
theorem imx307_set_format_mode_change (s : Imx307) (cfg : TryCfg) (w : World)
    (req : PadReq) (hp : req.pad = 0) (ht : req.isTry = false)
    (hro : s.hblank.read_only = true)
    (hch : s.modeIdx ≠ v4l2_find_nearest_size req.width req.height ∨
           s.fmt_code ≠ imx307_get_format_code s (imx307_requested_code req.code)) :
    (imx307_set_pad_format s cfg w req).1 = 0 ∧
    (imx307_set_pad_format s cfg w req).2.1.vblank.minimum = (imx307_VBLANK_MIN : Int) ∧
    (imx307_set_pad_format s cfg w req).2.1.vblank.maximum =
      (imx307_VTS_MAX : Int) -
        ((modeAt (v4l2_find_nearest_size req.width req.height)).height : Int) ∧
    (imx307_set_pad_format s cfg w req).2.1.vblank.val =
      ((modeAt (v4l2_find_nearest_size req.width req.height)).vts_def : Int) -
        ((modeAt (v4l2_find_nearest_size req.width req.height)).height : Int) ∧
    (imx307_set_pad_format s cfg w req).2.1.exposure.maximum =
      ((modeAt (v4l2_find_nearest_size req.width req.height)).vts_def : Int) - 4 ∧
    (imx307_set_pad_format s cfg w req).2.1.exposure.default_value =
      min (((modeAt (v4l2_find_nearest_size req.width req.height)).vts_def : Int) - 4)
        (imx307_EXPOSURE_DEFAULT : Int) ∧
    (imx307_set_pad_format s cfg w req).2.1.hblank.minimum =
      (imx307_PPL_DEFAULT : Int) -
        ((modeAt (v4l2_find_nearest_size req.width req.height)).width : Int) ∧
    (imx307_set_pad_format s cfg w req).2.1.hblank.maximum =
      (imx307_PPL_DEFAULT : Int) -
        ((modeAt (v4l2_find_nearest_size req.width req.height)).width : Int) ∧
    (imx307_set_pad_format s cfg w req).2.1.hblank.val =
      (imx307_PPL_DEFAULT : Int) -
        ((modeAt (v4l2_find_nearest_size req.width req.height)).width : Int) ∧
    (imx307_set_pad_format s cfg w req).2.1.hblank.read_only = true ∧
    (imx307_set_pad_format s cfg w req).2.1.modeIdx =
      v4l2_find_nearest_size req.width req.height ∧
    (imx307_set_pad_format s cfg w req).2.1.fmt_code =
      imx307_get_format_code s (imx307_requested_code req.code) := by
  obtain ⟨p0, t0, c0, rqw, rqh⟩ := req
  dsimp only at hp ht hch ⊢
  subst hp
  subst ht
  have hlt : v4l2_find_nearest_size rqw rqh < 4 := by
    have := argminIdx_lt (fun i => mode_dist (modeAt i) rqw rqh) supported_modes.length
      (by decide)
    simpa [v4l2_find_nearest_size] using this
  rw [set_pad_format_change_eq s cfg w c0 rqw rqh hch]
  obtain ⟨a1, a2, a3, a4, a5, a6, a7, a8, a9⟩ :=
    apply_mode_change_ctrls s w (v4l2_find_nearest_size rqw rqh)
      (imx307_get_format_code s (imx307_requested_code c0)) hlt hro
  obtain ⟨b1, b2, _, _, _⟩ :=
    apply_mode_change_fields s w (v4l2_find_nearest_size rqw rqh)
      (imx307_get_format_code s (imx307_requested_code c0))
  exact ⟨rfl, a1, a2, a3, a4, a5, a6, a7, a8, a9, b1, b2⟩

lemma uctrl_pres (s : Imx307) (w : World) (id : CtrlId) (v : Int) :
    (v4l2_ctrl_s_ctrl_user s w id v).2.1.streaming = s.streaming ∧
    (v4l2_ctrl_s_ctrl_user s w id v).2.1.hflip.grabbed = s.hflip.grabbed ∧
    (v4l2_ctrl_s_ctrl_user s w id v).2.1.vflip.grabbed = s.vflip.grabbed ∧
    (v4l2_ctrl_s_ctrl_user s w id v).2.1.fmt_code = s.fmt_code := by
  unfold v4l2_ctrl_s_ctrl_user
  dsimp only
  split_ifs with h1 h2
  · exact ⟨rfl, rfl, rfl, rfl⟩
  · exact ⟨rfl, rfl, rfl, rfl⟩
  · obtain ⟨f1, f2, f3, f4, f5⟩ := s_ctrl_driver_fields s w id v
    exact ⟨f1, f4, f5, f2⟩

lemma setfmt_pres (s : Imx307) (cfg : TryCfg) (w : World) (req : PadReq) :
    (imx307_set_pad_format s cfg w req).2.1.streaming = s.streaming ∧
    (imx307_set_pad_format s cfg w req).2.1.hflip.grabbed = s.hflip.grabbed ∧
    (imx307_set_pad_format s cfg w req).2.1.vflip.grabbed = s.vflip.grabbed ∧
    ((imx307_set_pad_format s cfg w req).2.1.fmt_code = s.fmt_code ∨
     (imx307_set_pad_format s cfg w req).2.1.fmt_code ∈ codes) := by
  unfold imx307_set_pad_format
  dsimp only
  split_ifs with h1 h2 h3 h4 h5
  · exact ⟨rfl, rfl, rfl, Or.inl rfl⟩
  · exact ⟨rfl, rfl, rfl, Or.inl rfl⟩
  · obtain ⟨f1, f2, f3, f4, f5⟩ := apply_mode_change_fields s w
      (v4l2_find_nearest_size req.width req.height)
      (imx307_get_format_code s (imx307_requested_code req.code))
    refine ⟨f3, f4, f5, Or.inr ?_⟩
    have hmem := get_format_code_mem s (imx307_requested_code req.code)
    rw [← f2] at hmem
    exact hmem
  · exact ⟨rfl, rfl, rfl, Or.inl rfl⟩
  · exact ⟨rfl, rfl, rfl, Or.inl rfl⟩
  · exact ⟨rfl, rfl, rfl, Or.inl rfl⟩

lemma set_stream_fmt_code (s : Imx307) (w : World) (e : Bool) :
    (imx307_set_stream s w e).2.1.fmt_code = s.fmt_code := by
  obtain ⟨e1, e2, e3, e4, e5⟩ := start_streaming_state s w
  unfold imx307_set_stream
  dsimp only
  split_ifs with h1 h2 h3
  · rfl
  · exact e2
  · exact e2
  · simp [stop_streaming_state]

lemma reach_fmt_code_mem : ∀ s w, Reach s w → s.fmt_code ∈ codes := by
  intro s w h
  induction h with
  | init w => decide
  | stream s w e hr ih => rw [set_stream_fmt_code]; exact ih
  | uctrl s w id v hr ih => rw [(uctrl_pres s w id v).2.2.2]; exact ih
  | setfmt s cfg w req hr ih =>
    rcases (setfmt_pres s cfg w req).2.2.2 with hsame | hmem
    · rw [hsame]; exact ih
    · exact hmem

lemma reach_stream_grab : ∀ s w, Reach s w → s.streaming = true →
    s.hflip.grabbed = true ∧ s.vflip.grabbed = true := by
  intro s w h
  induction h with
  | init w => intro hs; exact absurd hs (by decide)
  | stream s w e hr ih =>
    intro hs
    by_cases he : s.streaming = e
    · simp only [imx307_set_stream, if_pos he] at hs ⊢
      exact ih hs
    · obtain ⟨e1, e2, e3, e4, e5⟩ := start_streaming_state s w
      cases e with
      | false =>
        have hfalse : (imx307_set_stream s w false).2.1.streaming = false := by
          simp only [imx307_set_stream, if_neg he]
          rfl
        rw [hfalse] at hs
        exact absurd hs (by decide)
      | true =>
        by_cases h0 : (imx307_start_streaming s w).1 ≠ 0
        · have hpres : (imx307_set_stream s w true).2.1.streaming = s.streaming := by
            simp only [imx307_set_stream, if_neg he, if_pos rfl, if_pos h0]
            exact e1
          rw [hpres] at hs
          exact absurd hs he
        · push_neg at h0
          have heq : (imx307_set_stream s w true).2.1 =
              { (imx307_start_streaming s w).2.1 with streaming := true } := by
            simp [imx307_set_stream, he, h0]
          rw [heq]
          exact ⟨(e4 h0).1, (e4 h0).2⟩
  | uctrl s w id v hr ih =>
    intro hs
    obtain ⟨u1, u2, u3, u4⟩ := uctrl_pres s w id v
    rw [u1] at hs
    rw [u2, u3]
    exact ih hs
  | setfmt s cfg w req hr ih =>
    intro hs
    obtain ⟨u1, u2, u3, u4⟩ := setfmt_pres s cfg w req
    rw [u1] at hs
    rw [u2, u3]
    exact ih hs

lemma write_regs_ret : ∀ (l : List imx307_reg) (w : World),
    (imx307_write_regs w l).1 = 0 ∨ (imx307_write_regs w l).1 = -5 := by
  intro l
  induction l with
  | nil => intro w; exact Or.inl rfl
  | cons r rest ih =>
    intro w
    simp only [imx307_write_regs, imx307_write_reg]
    rw [if_neg (by norm_num : ¬ (4 < 1))]
    by_cases hb : w.busOk w.busCount
    · rw [if_pos hb]
      simpa using ih { w with busCount := w.busCount + 1 }
    · rw [if_neg hb]
      norm_num

/-- Claim C7: in every state reachable through the exposed interface
(set_streaming, user control writes, set_format), STREAMING implies
both flip controls are frozen (grabbed); consequently any attempt to
set hflip or vflip while STREAMING returns the locked-control error
-EBUSY and leaves the state unchanged; moreover a successful start
freezes both flip controls and a stop from STREAMING unfreezes them. -/
theorem imx307_flip_freeze_invariant :
    (∀ s w, Reach s w → s.streaming = true →
      s.hflip.grabbed = true ∧ s.vflip.grabbed = true) ∧
    (∀ s w w2 v, Reach s w → s.streaming = true →
      (v4l2_ctrl_s_ctrl_user s w2 CtrlId.HFLIP v).1 = -16 ∧
      (v4l2_ctrl_s_ctrl_user s w2 CtrlId.HFLIP v).2.1 = s ∧
      (v4l2_ctrl_s_ctrl_user s w2 CtrlId.VFLIP v).1 = -16 ∧
      (v4l2_ctrl_s_ctrl_user s w2 CtrlId.VFLIP v).2.1 = s) ∧
    (∀ s w, s.streaming = false → (imx307_set_stream s w true).1 = 0 →
      (imx307_set_stream s w true).2.1.streaming = true ∧
      (imx307_set_stream s w true).2.1.hflip.grabbed = true ∧
      (imx307_set_stream s w true).2.1.vflip.grabbed = true) ∧
    (∀ s w, s.streaming = true →
      (imx307_set_stream s w false).2.1.hflip.grabbed = false ∧
      (imx307_set_stream s w false).2.1.vflip.grabbed = false) := by
  refine ⟨reach_stream_grab, ?_, ?_, ?_⟩
  · intro s w w2 v hr hs
    obtain ⟨hh, hv⟩ := reach_stream_grab s w hr hs
    unfold v4l2_ctrl_s_ctrl_user
    dsimp only
    rw [if_pos (by simp [getCtrl, hh]), if_pos (by simp [getCtrl, hv])]
    exact ⟨rfl, rfl, rfl, rfl⟩
  · intro s w hs h0
    obtain ⟨e1, e2, e3, e4, e5⟩ := start_streaming_state s w
    have he : ¬ s.streaming = true := by simp [hs]
    by_cases hf : (imx307_start_streaming s w).1 ≠ 0
    · exfalso
      have : (imx307_set_stream s w true).1 = (imx307_start_streaming s w).1 := by
        simp [imx307_set_stream, he, hf]
      rw [this] at h0
      exact hf h0
    · push_neg at hf
      have heq : (imx307_set_stream s w true).2.1 =
          { (imx307_start_streaming s w).2.1 with streaming := true } := by
        simp [imx307_set_stream, he, hf]
      rw [heq]
      exact ⟨rfl, (e4 hf).1, (e4 hf).2⟩
  · intro s w hs
    have he : ¬ s.streaming = false := by simp [hs]
    have heq : (imx307_set_stream s w false).2.1 =
        { (imx307_stop_streaming s w).1 with streaming := false } := by
      simp [imx307_set_stream, he]
    rw [heq, stop_streaming_state]
    exact ⟨rfl, rfl⟩

/-- Claim C10: in every state reachable through the exposed interface,
the stored active format code is a member of the 8-entry code table —
it starts as a table member and every set_format stores only the
output of the flip resolver — so the format-register selection of the
start sequence always hits the 8-bit or the 10-bit case: its -EINVAL
fallback is unreachable, and the only possible results of the
format-register write are success or the transport error -EIO. -/
theorem imx307_fmt_code_safety (s : Imx307) (w : World) (h : Reach s w) :
    s.fmt_code ∈ codes ∧
    framefmt_case s.fmt_code ≠ none ∧
    (∀ w2 : World, (imx307_set_framefmt s w2).1 = 0 ∨ (imx307_set_framefmt s w2).1 = -5) := by
  have hmem := reach_fmt_code_mem s w h
  have hcase : framefmt_case s.fmt_code ≠ none := by
    have hall : ∀ c ∈ codes, framefmt_case c ≠ none := by decide
    exact hall _ hmem
  refine ⟨hmem, hcase, ?_⟩
  intro w2
  unfold imx307_set_framefmt
  rcases hcc : framefmt_case s.fmt_code with _ | b
  · exact absurd hcc hcase
  · cases b
    · exact write_regs_ret raw10_framefmt_regs w2
    · exact write_regs_ret raw8_framefmt_regs w2

/-- Witness for C10 at the post-probe state: the stored code is in the
table and the format-register selection does not hit the fallback. -/
theorem imx307_fmt_code_safety_witness :
    initState.fmt_code ∈ codes ∧
    framefmt_case initState.fmt_code ≠ none ∧
    ((imx307_set_framefmt initState world0).1 = 0 ∨
     (imx307_set_framefmt initState world0).1 = -5) := by
  have h := imx307_fmt_code_safety initState world0 (Reach.init world0)
  exact ⟨h.1, h.2.1, h.2.2 world0⟩

/-- Witness for C2 at the post-probe state and the 8-bit BGGR code. -/
theorem imx307_get_format_code_spec_witness :
    imx307_get_format_code initState MEDIA_BUS_FMT_SBGGR8_1X8 =
      codes.getD ((spec_base_index MEDIA_BUS_FMT_SBGGR8_1X8 &&& 0xfffffffc) |||
        (if initState.vflip.val ≠ 0 then 2 else 0) |||
        (if initState.hflip.val ≠ 0 then 1 else 0)) 0 ∧
    imx307_get_format_code initState MEDIA_BUS_FMT_SBGGR8_1X8 ∈ codes ∧
    imx307_get_format_code initState MEDIA_BUS_FMT_SBGGR8_1X8 =
      imx307_get_format_code initState MEDIA_BUS_FMT_SBGGR8_1X8 := by
  have h := imx307_get_format_code_spec initState MEDIA_BUS_FMT_SBGGR8_1X8
  exact ⟨h.1, h.2.1, h.2.2 initState rfl rfl⟩

/-- Witness for C1: switching the post-probe state to the 1080p mode
produces vblank 1763 - 1080 = 683, exposure maximum 1763 - 4 = 1759
with default 1600, hblank 3448 - 1920 = 1528 read-only, mode 1 active. -/
theorem imx307_set_format_mode_change_witness :
    (initState.modeIdx ≠ v4l2_find_nearest_size 1920 1080 ∨
     initState.fmt_code ≠ imx307_get_format_code initState
       (imx307_requested_code MEDIA_BUS_FMT_SRGGB10_1X10)) ∧
    (imx307_set_pad_format initState cfg0 world0
      ⟨0, false, MEDIA_BUS_FMT_SRGGB10_1X10, 1920, 1080⟩).1 = 0 ∧
    (imx307_set_pad_format initState cfg0 world0
      ⟨0, false, MEDIA_BUS_FMT_SRGGB10_1X10, 1920, 1080⟩).2.1.vblank.val = 683 ∧
    (imx307_set_pad_format initState cfg0 world0
      ⟨0, false, MEDIA_BUS_FMT_SRGGB10_1X10, 1920, 1080⟩).2.1.exposure.maximum = 1759 ∧
    (imx307_set_pad_format initState cfg0 world0
      ⟨0, false, MEDIA_BUS_FMT_SRGGB10_1X10, 1920, 1080⟩).2.1.exposure.default_value = 1600 ∧
    (imx307_set_pad_format initState cfg0 world0
      ⟨0, false, MEDIA_BUS_FMT_SRGGB10_1X10, 1920, 1080⟩).2.1.hblank.val = 1528 ∧
    (imx307_set_pad_format initState cfg0 world0
      ⟨0, false, MEDIA_BUS_FMT_SRGGB10_1X10, 1920, 1080⟩).2.1.hblank.read_only = true ∧
    (imx307_set_pad_format initState cfg0 world0
      ⟨0, false, MEDIA_BUS_FMT_SRGGB10_1X10, 1920, 1080⟩).2.1.modeIdx = 1 := by
  have hch : initState.modeIdx ≠ v4l2_find_nearest_size 1920 1080 ∨
      initState.fmt_code ≠ imx307_get_format_code initState
        (imx307_requested_code MEDIA_BUS_FMT_SRGGB10_1X10) := Or.inl (by decide)
  have h := imx307_set_format_mode_change initState cfg0 world0
    ⟨0, false, MEDIA_BUS_FMT_SRGGB10_1X10, 1920, 1080⟩ rfl rfl rfl hch
  refine ⟨hch, h.1, ?_, ?_, ?_, ?_, h.2.2.2.2.2.2.2.2.2.1, ?_⟩
  · rw [h.2.2.2.1]; decide
  · rw [h.2.2.2.2.1]; decide
  · rw [h.2.2.2.2.2.1]; decide
  · rw [h.2.2.2.2.2.2.2.2.1]; decide
  · rw [h.2.2.2.2.2.2.2.2.2.2.1]; decide

/-- Witness for C4: setting vblank to 1000 at the post-probe state
(mode height 2464) recomputes the exposure maximum to 3460 and its
default to 1600, storing 1000, with the device unpowered. -/
theorem imx307_vblank_recompute_witness :
    (initState.vblank.grabbed = false ∧ initState.vblank.read_only = false ∧
     initState.vblank.minimum ≤ 1000 ∧ (1000 : Int) ≤ initState.vblank.maximum) ∧
    (v4l2_ctrl_s_ctrl_user initState world0 CtrlId.VBLANK 1000).2.1.exposure.maximum = 3460 ∧
    (v4l2_ctrl_s_ctrl_user initState world0 CtrlId.VBLANK 1000).2.1.exposure.default_value = 1600 ∧
    (v4l2_ctrl_s_ctrl_user initState world0 CtrlId.VBLANK 1000).2.1.vblank.val = 1000 := by
  have h := imx307_vblank_recompute initState world0 1000 rfl rfl (by decide) (by decide)
  refine ⟨⟨rfl, rfl, by decide, by decide⟩, ?_, ?_, h.2.2.1⟩
  · rw [h.1]; decide
  · rw [h.2.1]; decide

/-- Witness for C7: a concrete start from the post-probe state reaches
a streaming state in which both flip controls are frozen and a user
hflip write is rejected with -EBUSY leaving the state unchanged. -/
theorem imx307_flip_freeze_invariant_witness :
    (imx307_set_stream initState world0 true).2.1.streaming = true ∧
    (imx307_set_stream initState world0 true).2.1.hflip.grabbed = true ∧
    (imx307_set_stream initState world0 true).2.1.vflip.grabbed = true ∧
    (v4l2_ctrl_s_ctrl_user (imx307_set_stream initState world0 true).2.1
      world0 CtrlId.HFLIP 1).1 = -16 ∧
    (v4l2_ctrl_s_ctrl_user (imx307_set_stream initState world0 true).2.1
      world0 CtrlId.HFLIP 1).2.1 = (imx307_set_stream initState world0 true).2.1 := by
  have hr : Reach (imx307_set_stream initState world0 true).2.1
      (imx307_set_stream initState world0 true).2.2 :=
    Reach.stream initState world0 true (Reach.init world0)
  have hs : (imx307_set_stream initState world0 true).2.1.streaming = true := by decide
  have h1 := imx307_flip_freeze_invariant.1 _ _ hr hs
  have h2 := imx307_flip_freeze_invariant.2.1 _ _ world0 1 hr hs
  exact ⟨hs, h1.1, h1.2, h2.1, h2.2.1⟩

/-- Witness for C8: requesting 1920 by 1080 round-trips to exactly the
1080p catalog entry, which matches the request exactly. -/
theorem imx307_set_get_roundtrip_witness :
    (imx307_get_pad_format
        (imx307_set_pad_format initState cfg0 world0
          ⟨0, false, MEDIA_BUS_FMT_SRGGB10_1X10, 1920, 1080⟩).2.1
        (imx307_set_pad_format initState cfg0 world0
          ⟨0, false, MEDIA_BUS_FMT_SRGGB10_1X10, 1920, 1080⟩).2.2.1
        0 false).2.1.width = 1920 ∧
    (imx307_get_pad_format
        (imx307_set_pad_format initState cfg0 world0
          ⟨0, false, MEDIA_BUS_FMT_SRGGB10_1X10, 1920, 1080⟩).2.1
        (imx307_set_pad_format initState cfg0 world0
          ⟨0, false, MEDIA_BUS_FMT_SRGGB10_1X10, 1920, 1080⟩).2.2.1
        0 false).2.1.height = 1080 ∧
    (∃ m ∈ supported_modes, m.width = 1920 ∧ m.height = 1080) := by
  have h := imx307_set_get_roundtrip initState cfg0 world0
    MEDIA_BUS_FMT_SRGGB10_1X10 1920 1080
  have hw : (imx307_get_pad_format
      (imx307_set_pad_format initState cfg0 world0
        ⟨0, false, MEDIA_BUS_FMT_SRGGB10_1X10, 1920, 1080⟩).2.1
      (imx307_set_pad_format initState cfg0 world0
        ⟨0, false, MEDIA_BUS_FMT_SRGGB10_1X10, 1920, 1080⟩).2.2.1
      0 false).2.1.width = 1920 := by
    rw [h.2.2.2.1]; decide
  have hh : (imx307_get_pad_format
      (imx307_set_pad_format initState cfg0 world0
        ⟨0, false, MEDIA_BUS_FMT_SRGGB10_1X10, 1920, 1080⟩).2.1
      (imx307_set_pad_format initState cfg0 world0
        ⟨0, false, MEDIA_BUS_FMT_SRGGB10_1X10, 1920, 1080⟩).2.2.1
      0 false).2.1.height = 1080 := by
    rw [h.2.2.2.2.1]; decide
  exact ⟨hw, hh, h.2.2.2.2.2 ⟨hw, hh⟩⟩
